import Mathlib

/-!
Verification development for the `coach` content-generation pipeline
(`coach/views.py`, `coach/services.py`, `coach/models.py`).

The Python code is shallowly embedded: pure text transformations become
Lean functions on `String` / `List Char`; calls into external collaborators
(the Gemini API, the Django ORM, `json.loads`) are modelled as explicit
`Except String _` outcome parameters, so that every exception-handling path
of the source is an explicit branch of the embedding.
-/

/- ## Rate Limiter (`rate_limit` decorator, views.py lines 18-63) -/

/-- Truncation-toward-zero conversion, the semantics of Python `int()` on a
rational value. -/
def pyInt (q : ℚ) : ℤ :=
  if 0 ≤ q then ⌊q⌋ else ⌈q⌉

/-- Decision of one admission check: allowed, or rejected with the
`wait_seconds` value reported to the caller. -/
inductive RateDecision where
  | allowed : RateDecision
  | rejected (wait_seconds : ℤ) : RateDecision
deriving DecidableEq, Repr

/-- Embedding of one pass through the `rate_limit` decorator's wrapper for an
authenticated caller (views.py lines 27-61).  `stored` is the timestamp list
held in the cache under the caller's key (`cache.get(cache_key, [])`), `now`
is `time.time()`.  Returns the decision together with the cache content after
the check: on rejection no `cache.set` is executed, so the stored list is
returned unchanged; on admission the pruned list with `now` appended is
stored. -/
def rate_limit (requests_per_minute : ℕ) (now : ℚ) (stored : List ℚ) :
    RateDecision × List ℚ :=
  let cutoff := now - 60
  let timestamps := stored.filter (fun t => cutoff < t)
  if requests_per_minute ≤ timestamps.length then
    -- wait_time = int(60 - (now - timestamps[0])); `timestamps` is nonempty
    -- here whenever requests_per_minute ≥ 1 (Python would raise IndexError
    -- on an empty list; every call site uses the ceiling 15)
    (.rejected (pyInt (60 - (now - timestamps.headI))), stored)
  else
    (.allowed, timestamps ++ [now])

/- ## Table-formatting normalization (`AICoach._fix_table_formatting`,
services.py lines 88-111): six sequential `re.sub` passes. -/

/-- Python regex `\s` character class: space, tab, newline, carriage return,
vertical tab, form feed. -/
def pySpace (c : Char) : Bool :=
  c = ' ' || c = '\t' || c = '\n' || c = '\r' || c = '\x0b' || c = '\x0c'

/-- Regex character class `[A-Za-z0-9]`. -/
def asciiAlnum (c : Char) : Bool :=
  ('A' ≤ c && c ≤ 'Z') || ('a' ≤ c && c ≤ 'z') || ('0' ≤ c && c ≤ '9')

/-- Regex character class `[A-Za-z]`. -/
def asciiLetter (c : Char) : Bool :=
  ('A' ≤ c && c ≤ 'Z') || ('a' ≤ c && c ≤ 'z')

/-- Leftmost, non-overlapping global substitution, the semantics of Python
`re.sub` for patterns that always consume at least one character.  The matcher
returns, on a match at the current position, the replacement text together
with the remaining input after the matched span; scanning resumes after the
replacement (replaced text is not rescanned).  Fuel is the input length,
sufficient because every match consumes at least one character. -/
def reSubAux (m : List Char → Option (List Char × List Char)) :
    Nat → List Char → List Char
  | 0, l => l
  | _ + 1, [] => []
  | fuel + 1, c :: cs =>
    match m (c :: cs) with
    | some (rep, rest) => rep ++ reSubAux m fuel rest
    | none => c :: reSubAux m fuel cs

/-- One global-substitution pass. -/
def reSub (m : List Char → Option (List Char × List Char)) (l : List Char) :
    List Char :=
  reSubAux m l.length l

/-- Matcher for pass 1, pattern `\|\s*\|\s*:?-` with replacement `|\n| -`.
The greedy `\s*` runs are deterministic here because `\s` matches neither `|`
nor `:` nor `-`. -/
def tableFix1 (l : List Char) : Option (List Char × List Char) :=
  match l with
  | '|' :: l1 =>
    match l1.dropWhile pySpace with
    | '|' :: l2 =>
      match l2.dropWhile pySpace with
      | ':' :: '-' :: rest => some ("|\n| -".data, rest)
      | '-' :: rest => some ("|\n| -".data, rest)
      | _ => none
    | _ => none
  | _ => none

/-- Matcher for pass 2, pattern `\|\s*\|(:---)` with replacement `|\n|\1`. -/
def tableFix2 (l : List Char) : Option (List Char × List Char) :=
  match l with
  | '|' :: l1 =>
    match l1.dropWhile pySpace with
    | '|' :: ':' :: '-' :: '-' :: '-' :: rest => some ("|\n|:---".data, rest)
    | _ => none
  | _ => none

/-- Matcher for pass 3, pattern `(-{3,}\s*\|)\s*\|\s*(?=[A-Za-z0-9])` with
replacement `\1\n| `.  The lookahead consumes nothing. -/
def tableFix3 (l : List Char) : Option (List Char × List Char) :=
  let dashes := l.takeWhile (fun c => c = '-')
  if dashes.length < 3 then none
  else
    let l1 := l.dropWhile (fun c => c = '-')
    let ws1 := l1.takeWhile pySpace
    match l1.dropWhile pySpace with
    | '|' :: l2 =>
      match l2.dropWhile pySpace with
      | '|' :: l3 =>
        match l3.dropWhile pySpace with
        | c :: rest =>
          if asciiAlnum c then
            some (dashes ++ ws1 ++ ('|' :: "\n| ".data), c :: rest)
          else none
        | [] => none
      | _ => none
    | _ => none

/-- Matcher for pass 4, pattern `\|\s*\|\s*(?=[A-Za-z0-9])` with replacement
`|\n| `. -/
def tableFix4 (l : List Char) : Option (List Char × List Char) :=
  match l with
  | '|' :: l1 =>
    match l1.dropWhile pySpace with
    | '|' :: l2 =>
      match l2.dropWhile pySpace with
      | c :: rest => if asciiAlnum c then some ("|\n| ".data, c :: rest) else none
      | [] => none
    | _ => none
  | _ => none

/-- Matcher for pass 5, pattern `\n\|\s*\|` with replacement `\n|`. -/
def tableFix5 (l : List Char) : Option (List Char × List Char) :=
  match l with
  | '\n' :: '|' :: l1 =>
    match l1.dropWhile pySpace with
    | '|' :: rest => some ("\n|".data, rest)
    | _ => none
  | _ => none

/-- Matcher for pass 6, pattern `([^\n])\n(\| [A-Za-z])` with replacement
`\1\n\n\2`. -/
def tableFix6 (l : List Char) : Option (List Char × List Char) :=
  match l with
  | c :: '\n' :: '|' :: ' ' :: d :: rest =>
    if c ≠ '\n' && asciiLetter d then
      some ([c, '\n', '\n', '|', ' ', d], rest)
    else none
  | _ => none

/-- Embedding of `AICoach._fix_table_formatting` (services.py lines 88-111):
the six `re.sub` passes applied in source order. -/
def fix_table_formatting (content : String) : String :=
  let l := content.data
  let l := reSub tableFix1 l
  let l := reSub tableFix2 l
  let l := reSub tableFix3 l
  let l := reSub tableFix4 l
  let l := reSub tableFix5 l
  let l := reSub tableFix6 l
  ⟨l⟩

/- ## JSON values and Python-semantics helpers for the Response Repair Engine
(`AICoach.generate_content`, services.py lines 113-245). -/

/-- Shallow model of a parsed Python JSON value (the result of `json.loads`).
Numbers are modelled as integers; no claim depends on numeric values. -/
inductive Json where
  | null : Json
  | bool (b : Bool) : Json
  | num (n : Int) : Json
  | str (s : String) : Json
  | arr (elems : List Json) : Json
  | obj (fields : List (String × Json)) : Json

/-- Whether a JSON value is a mapping (a Python dict). -/
def Json.isObj : Json → Bool
  | .obj _ => true
  | _ => false

/-- Dict key lookup.  Keys of an object produced by `json.loads` are unique
(Python dicts collapse duplicates), so first-match lookup is faithful. -/
def lookupField (fs : List (String × Json)) (k : String) : Option Json :=
  (fs.find? (fun p => p.1 = k)).map (·.2)

/-- Dict item assignment `d[k] = v` for a key already present. -/
def setField (fs : List (String × Json)) (k : String) (v : Json) :
    List (String × Json) :=
  fs.map (fun p => if p.1 = k then (p.1, v) else p)

/-- First index at which `pat` occurs in `l`, the semantics of Python
`str.find` for a found needle. -/
def findSub (pat : List Char) : List Char → Option Nat
  | [] => if pat.isEmpty then some 0 else none
  | l@(_ :: cs) =>
    if pat.isPrefixOf l then some 0 else (findSub pat cs).map (· + 1)

/-- Python `needle in haystack` on strings. -/
def containsSub (pat l : List Char) : Bool :=
  (findSub pat l).isSome

/-- Python `key in value` (the `'content' in result` test, services.py line
128).  Membership is well-defined on dicts (key test), lists (element
equality: a string key can only equal a string element) and strings
(substring test); on `int`, `bool` and `None` it raises `TypeError`. -/
def pyIn (j : Json) (key : String) : Except String Bool :=
  match j with
  | .obj fs => .ok (fs.any (fun p => p.1 = key))
  | .arr xs => .ok (xs.any (fun e => match e with | .str s => s = key | _ => false))
  | .str s => .ok (containsSub key.data s.data)
  | .num _ => .error "argument of type 'int' is not iterable"
  | .bool _ => .error "argument of type 'bool' is not iterable"
  | .null => .error "argument of type 'NoneType' is not iterable"

/-- Python `str.strip()` (default whitespace strip on both ends). -/
def pyStrip (l : List Char) : List Char :=
  ((l.dropWhile pySpace).reverse.dropWhile pySpace).reverse

/-- Python `str.rstrip('"}')`: remove trailing characters drawn from the set
`{'"', '}'}`. -/
def rstripQuoteBrace (l : List Char) : List Char :=
  (l.reverse.dropWhile (fun c => c = '"' || c = '}')).reverse

/- ### The malformed-JSON extraction regexes (services.py lines 140, 156,
168).  All three share the prefix `"<field>"\s*:\s*<opener>`; the lazy
captured group then runs to the earliest matching terminator, `re.DOTALL`
letting `.` cross newlines.  `$` (no `re.MULTILINE`) matches at the end of
the string or just before a terminal newline. -/

/-- Match the pattern prefix `"<field>"\s*:\s*<opener>` at the head of `l`,
returning the text after the opener. -/
def matchKeyOpen (field : List Char) (opener : Char) (l : List Char) :
    Option (List Char) :=
  if ('"' :: field ++ ['"']).isPrefixOf l then
    match (l.drop (field.length + 2)).dropWhile pySpace with
    | ':' :: l2 =>
      match l2.dropWhile pySpace with
      | c :: l3 => if c = opener then some l3 else none
      | [] => none
    | _ => none
  else none

/-- Leftmost occurrence of the pattern prefix (the `re.search` scan). -/
def searchKeyOpen (field : List Char) (opener : Char) :
    List Char → Option (List Char)
  | [] => none
  | l@(_ :: cs) =>
    match matchKeyOpen field opener l with
    | some rest => some rest
    | none => searchKeyOpen field opener cs

/-- Lazy capture of `(.*?)(?:"\s*}|$)`: stop at the first `"` followed by
optional whitespace and `}`, else at the `$` position. -/
def lazyCaptureContent : List Char → List Char
  | [] => []
  | c :: cs =>
    if c = '"' && (match cs.dropWhile pySpace with | '}' :: _ => true | _ => false) then []
    else if c = '\n' && cs.isEmpty then []
    else c :: lazyCaptureContent cs

/-- Lazy capture of `(.*?)(?:"\s*[,}]|$)`: stop at the first `"` followed by
optional whitespace and `,` or `}`, else at the `$` position. -/
def lazyCaptureField : List Char → List Char
  | [] => []
  | c :: cs =>
    if c = '"' && (match cs.dropWhile pySpace with
                   | ',' :: _ => true | '}' :: _ => true | _ => false) then []
    else if c = '\n' && cs.isEmpty then []
    else c :: lazyCaptureField cs

/-- Lazy capture of `(.*?)\]`: up to the first `]`, failing when there is
none. -/
def lazyCaptureArr : List Char → Option (List Char)
  | [] => none
  | c :: cs => if c = ']' then some [] else (lazyCaptureArr cs).map (c :: ·)

/-- Leftmost match of `"<field>"\s*:\s*\[(.*?)\]`: a start position whose
capture finds no closing `]` makes the whole match fail there, and the scan
moves on. -/
def searchArrCapture (field : List Char) : List Char → Option (List Char)
  | [] => none
  | l@(_ :: cs) =>
    match matchKeyOpen field '[' l with
    | some rest =>
      match lazyCaptureArr rest with
      | some cap => some cap
      | none => searchArrCapture field cs
    | none => searchArrCapture field cs

/-- Unescaping applied to a pattern-extracted `content` value (services.py
lines 144-147), in source order. -/
def unescapeContent (s : String) : String :=
  ((((s.replace "\\n" "\n").replace "\\\"" "\"").replace "\\\\" "\\").replace
    "\\t" "\t")

/-- Embedding of the inner helper `extract_field` (services.py lines
154-161): pattern extraction of a string field, unescaping `\n` and `\"`,
empty string when the pattern finds nothing. -/
def extract_field (text field : String) : String :=
  match searchKeyOpen field.data '"' text.data with
  | some rest =>
    (((⟨lazyCaptureField rest⟩ : String).replace "\\n" "\n").replace
      "\\\"" "\"")
  | none => ""

/-- Embedding of the inner helper `extract_array` (services.py lines
163-177): locate the array's bracketed span, re-parse it in isolation with
`json.loads` (the `jparse` parameter), degrade to `[]` on any failure. -/
def extract_array (jparse : String → Except String Json) (text field : String) :
    Json :=
  match searchArrCapture field.data text.data with
  | some cap =>
    match jparse ("[" ++ (⟨cap⟩ : String) ++ "]") with
    | .ok v => v
    | .error _ => .arr []
  | none => .arr []

/-- Markdown-heading slice of the direct-markdown fallback (services.py lines
201-207): slice from the first heading marker, strip, and drop trailing JSON
artifacts. -/
def markdownSlice (text : String) : String :=
  let l := text.data
  let start :=
    if containsSub "## ".data l then (findSub "## ".data l).getD 0
    else (findSub "# ".data l).getD 0
  let extracted := pyStrip (l.drop start)
  let extracted :=
    if "\"\x7d".data.isSuffixOf extracted || "\"".data.isSuffixOf extracted then
      pyStrip (rstripQuoteBrace extracted)
    else extracted
  ⟨extracted⟩

/-- Error-shaped result of the outer `except Exception` handler (services.py
lines 231-245), with `e` the fault's `str(e)`. -/
def errorFallback (e : String) : Json :=
  .obj [("title", .str "Error Generating Content"),
        ("summary", .str "There was an error generating the content."),
        ("description", .str ("Error: " ++ e)),
        ("full_content", .str ("Error details: " ++ e)),
        ("content", .str ""),
        ("exercises", .arr []),
        ("quiz", .arr []),
        ("chapters", .arr []),
        ("conversational_practice",
         .arr [.obj [("speaker", .str "System"),
                     ("text", .str "Error generating practice.")]])]

/-- Strict-parse success path (services.py lines 124-131): test
`'content' in result`, and when present normalize the field via
`_fix_table_formatting`.  A non-iterable parse result makes the membership
test raise `TypeError`, and a non-string `content` value makes `re.sub`
raise `TypeError`; both surface as `.error` here and are caught by the outer
`except Exception` handler (error texts approximate the CPython messages;
no claim depends on them). -/
def strictBranch (result : Json) : Except String Json := do
  let has ← pyIn result "content"
  if has then
    match result with
    | .obj fs =>
      match lookupField fs "content" with
      | some (.str s) =>
        .ok (.obj (setField fs "content" (.str (fix_table_formatting s))))
      | some _ => .error "expected string or bytes-like object"
      | none => .error "'content'"
    | .str _ => .error "string indices must be integers"
    | .arr _ => .error "list indices must be integers, not 'str'"
    | _ => .error "non-iterable"
  else
    .ok result

/-- The `except json.JSONDecodeError` repair cascade (services.py lines
132-230): pattern extraction of `content`, then field-by-field lesson
extraction, then the direct-markdown fallback, then the final error-shaped
fallback.  `je` is the decode error's `str(je)`. -/
def jsonDecodeBranch (jparse : String → Except String Json)
    (response_text je : String) : Json :=
  match (searchKeyOpen "content".data '"' response_text.data).map
      (fun rest => (⟨lazyCaptureContent rest⟩ : String)) with
  | some captured =>
    .obj [("content", .str (fix_table_formatting (unescapeContent captured)))]
  | none =>
    let title0 := extract_field response_text "title"
    let title := if title0 = "" then "Generated Lesson" else title0
    let summary0 := extract_field response_text "summary"
    let summary := if summary0 = "" then "AI-generated content" else summary0
    let full_content := extract_field response_text "full_content"
    let exercises := extract_array jparse response_text "exercises"
    let quiz := extract_array jparse response_text "quiz"
    let conversational_practice :=
      extract_array jparse response_text "conversational_practice"
    if full_content ≠ "" then
      .obj [("title", .str title), ("summary", .str summary),
            ("full_content", .str (fix_table_formatting full_content)),
            ("exercises", exercises), ("quiz", quiz),
            ("conversational_practice", conversational_practice)]
    else if containsSub "# ".data response_text.data ||
        containsSub "## ".data response_text.data then
      let extracted := fix_table_formatting (markdownSlice response_text)
      .obj [("title", .str (if title = "" then "Generated Lesson" else title)),
            ("summary",
             .str (if summary = "" then "AI-generated content" else summary)),
            ("full_content", .str extracted), ("content", .str extracted),
            ("exercises", .arr []), ("quiz", .arr []),
            ("conversational_practice", .arr [])]
    else
      .obj [("title", .str (if title = "" then "Error Parsing Response" else title)),
            ("summary",
             .str (if summary = "" then "JSON parse error: " ++ je else summary)),
            ("description", .str ("JSON parse error: " ++ je)),
            ("full_content", .str (response_text.take 2000)),
            ("content", .str (response_text.take 1000)),
            ("exercises", .arr []), ("quiz", .arr []), ("chapters", .arr []),
            ("conversational_practice", .arr [])]

/-- Embedding of `AICoach.generate_content` (services.py lines 113-245).
External collaborators are explicit: `apiCall` is the outcome of the
provider call together with reading `response.text` (its fault message on a
raise), and `jparse` models the `json.loads` library function (`.error`
standing for `json.JSONDecodeError`).  The two `except` clauses of the
source are the two fault-consuming branches; a `.error` overall result would
mean an exception escaping to the caller. -/
def generate_content (jparse : String → Except String Json)
    (apiCall : Except String String) : Except String Json :=
  match apiCall with
  | .error e => .ok (errorFallback e)
  | .ok response_text =>
    match jparse response_text with
    | .error je => .ok (jsonDecodeBranch jparse response_text je)
    | .ok result =>
      match strictBranch result with
      | .ok r => .ok r
      | .error e => .ok (errorFallback e)

/- ## Task Tracker and Background Executor (models.py `GenerationTask`,
views.py background jobs).  Each background job is embedded as a function
from the outcomes of its external operations (ORM reads/writes, generation
calls — each an `Except String _`, the error carrying the exception's
`str(e)`) to the sequence of task states it persists.  A task's lifecycle
trace is the view-persisted states followed by the job-persisted states. -/

/-- Status values of `GenerationTask.STATUS_CHOICES` (models.py 68-73). -/
inductive Status where
  | pending | processing | completed | failed
deriving DecidableEq, Repr

/-- Mutable fields of one `GenerationTask` row relevant to the lifecycle
invariants: `status`, `result_id` (nullable), `error_message` (blank
default). -/
structure TaskState where
  status : Status
  result_id : Option Nat
  error_message : String
deriving DecidableEq, Repr

/-- State created by every submitting view:
`GenerationTask.objects.create(..., status='pending')`. -/
def pendingTask : TaskState :=
  { status := .pending, result_id := none, error_message := "" }

/-- Shared `except Exception` handler of every background job: re-fetch the
task (whose persisted state is `cur`), set `status='failed'` and
`error_message=str(e)`, save.  `handler` is the outcome of that re-fetch and
save; if it itself faults, nothing further is persisted and the thread
dies. -/
def failTask (handler : Except String Unit) (cur : TaskState) (msg : String) :
    List TaskState :=
  match handler with
  | .ok _ => [{ cur with status := .failed, error_message := msg }]
  | .error _ => []

/-- Embedding of `generate_lesson_background` (views.py 115-154): states the
job persists after dispatch, `t0` being the task's persisted state at
dispatch.  Operations in source order: task fetch, processing save,
`coach.generate_lesson`, `Topic.objects.get_or_create`,
`Lesson.objects.create` (yielding the lesson id), completed save. -/
def generate_lesson_background (t0 : TaskState)
    (fetchTask saveProcessing : Except String Unit)
    (gen : Except String Json)
    (topicGetOrCreate : Except String Unit)
    (lessonCreate : Except String Nat)
    (saveCompleted handler : Except String Unit) : List TaskState :=
  match fetchTask with
  | .error m => failTask handler t0 m
  | .ok _ =>
  match saveProcessing with
  | .error m => failTask handler t0 m
  | .ok _ =>
  let t1 : TaskState := { t0 with status := .processing }
  t1 ::
  (match gen with
  | .error m => failTask handler t1 m
  | .ok _ =>
  match topicGetOrCreate with
  | .error m => failTask handler t1 m
  | .ok _ =>
  match lessonCreate with
  | .error m => failTask handler t1 m
  | .ok lessonId =>
  match saveCompleted with
  | .error m => failTask handler t1 m
  | .ok _ => [{ t1 with status := .completed, result_id := some lessonId }])

/-- Embedding of `regenerate_lesson_background` (views.py 250-282): same
template, updating lesson `lessonId` in place. -/
def regenerate_lesson_background (t0 : TaskState) (lessonId : Nat)
    (fetchTask saveProcessing lessonGet : Except String Unit)
    (gen : Except String Json)
    (lessonSave saveCompleted handler : Except String Unit) : List TaskState :=
  match fetchTask with
  | .error m => failTask handler t0 m
  | .ok _ =>
  match saveProcessing with
  | .error m => failTask handler t0 m
  | .ok _ =>
  let t1 : TaskState := { t0 with status := .processing }
  t1 ::
  (match lessonGet with
  | .error m => failTask handler t1 m
  | .ok _ =>
  match gen with
  | .error m => failTask handler t1 m
  | .ok _ =>
  match lessonSave with
  | .error m => failTask handler t1 m
  | .ok _ =>
  match saveCompleted with
  | .error m => failTask handler t1 m
  | .ok _ => [{ t1 with status := .completed, result_id := some lessonId }])

/-- Chapter stub of a generated book outline, the per-chapter dict of
`book_data.get('chapters', [])`; `none` fields model absent keys, whose
defaults (`f'Chapter {i+1}'`, `''`) the job applies. -/
structure ChapterStub where
  title : Option String
  summary : Option String
deriving DecidableEq, Repr

/-- Payload of a successful `coach.generate_book_outline` call as consumed
by the jobs: `book_data.get('title', 'Untitled Book')`,
`book_data.get('description', '')`, `book_data.get('chapters', [])`. -/
structure BookOutline where
  title : Option String
  description : Option String
  chapters : List ChapterStub
deriving DecidableEq, Repr

/-- Persisted fields of one `Chapter` row (models in admin-managed app):
title, summary, markdown content, order index. -/
structure Chapter where
  title : String
  summary : String
  content : String
  order : Nat
deriving DecidableEq, Repr

/-- Result of the two book jobs: the task states persisted after dispatch
together with the chapter rows as left in the store. -/
structure BookJobResult where
  states : List TaskState
  chapters : List Chapter
deriving DecidableEq, Repr

/-- Chapter loop of `generate_book_outline_background` (views.py 439-459):
for each stub, generate content inside an inner `try` whose handler degrades
the body to an inline error message, then `Chapter.objects.create` — whose
own fault aborts the loop and reaches the outer handler.  `chapterGen i` is
the outcome of `coach.generate_chapter_content` combined with
`content_data.get('content', '')` for chapter `i`; `chapterCreate i` the
outcome of its row creation.  Returns the created rows and the aborting
fault, if any. -/
def outlineChapterLoop (chapterGen : Nat → Except String String)
    (chapterCreate : Nat → Except String Unit) :
    List ChapterStub → Nat → List Chapter × Option String
  | [], _ => ([], none)
  | stub :: rest, i =>
    let chapter_title := stub.title.getD ("Chapter " ++ toString (i + 1))
    let chapter_content :=
      match chapterGen i with
      | .ok c => c
      | .error ce => "Error generating content: " ++ ce
    match chapterCreate i with
    | .error m => ([], some m)
    | .ok _ =>
      let next := outlineChapterLoop chapterGen chapterCreate rest (i + 1)
      (⟨chapter_title, stub.summary.getD "", chapter_content, i⟩ :: next.1,
       next.2)

/-- Embedding of `generate_book_outline_background` (views.py 410-474):
stage one of book generation.  Operations in source order: task fetch,
processing save, `coach.generate_book_outline`, `Book.objects.create`
(yielding the book id), the chapter loop, completed save. -/
def generate_book_outline_background (t0 : TaskState)
    (fetchTask saveProcessing : Except String Unit)
    (outline : Except String BookOutline)
    (bookCreate : Except String Nat)
    (chapterGen : Nat → Except String String)
    (chapterCreate : Nat → Except String Unit)
    (saveCompleted handler : Except String Unit) : BookJobResult :=
  match fetchTask with
  | .error m => ⟨failTask handler t0 m, []⟩
  | .ok _ =>
  match saveProcessing with
  | .error m => ⟨failTask handler t0 m, []⟩
  | .ok _ =>
  let t1 : TaskState := { t0 with status := .processing }
  match outline with
  | .error m => ⟨t1 :: failTask handler t1 m, []⟩
  | .ok book_data =>
  match bookCreate with
  | .error m => ⟨t1 :: failTask handler t1 m, []⟩
  | .ok bookId =>
  let run := outlineChapterLoop chapterGen chapterCreate book_data.chapters 0
  match run.2 with
  | some m => ⟨t1 :: failTask handler t1 m, run.1⟩
  | none =>
  match saveCompleted with
  | .error m => ⟨t1 :: failTask handler t1 m, run.1⟩
  | .ok _ =>
    ⟨[t1, { t1 with status := .completed, result_id := some bookId }], run.1⟩

/-- Chapter loop of `generate_book_content_background` (views.py 536-546):
for each existing chapter row, an inner `try` generates and saves the new
content; its handler writes an inline error message instead and saves again;
a fault of that second save aborts the loop and reaches the outer handler.
Returns the chapter rows as persisted plus the aborting fault, if any. -/
def contentChapterLoop (perGen : Nat → Except String String)
    (perSave perErrSave : Nat → Except String Unit) :
    List Chapter → Nat → List Chapter × Option String
  | [], _ => ([], none)
  | ch :: rest, i =>
    let attempt : Except String Chapter :=
      match perGen i with
      | .ok c =>
        match perSave i with
        | .ok _ => .ok { ch with content := c }
        | .error m =>
          match perErrSave i with
          | .ok _ => .ok { ch with content := "Error generating content: " ++ m }
          | .error m2 => .error m2
      | .error m =>
        match perErrSave i with
        | .ok _ => .ok { ch with content := "Error generating content: " ++ m }
        | .error m2 => .error m2
    match attempt with
    | .ok ch2 =>
      let next := contentChapterLoop perGen perSave perErrSave rest (i + 1)
      (ch2 :: next.1, next.2)
    | .error m2 => (ch :: rest, some m2)

/-- Embedding of `generate_book_content_background` (views.py 517-561):
stage two of book generation, rewriting the content of every existing
chapter row of book `bookId` in order.  `chapters` is `db_chapters`;
`perGen i` the outcome of `coach.generate_chapter_content` combined with
`content_data.get('content', '')`; `perSave i` / `perErrSave i` the
outcomes of the try-branch and handler-branch `chapter.save()`. -/
def generate_book_content_background (t0 : TaskState) (bookId : Nat)
    (fetchTask saveProcessing bookGet : Except String Unit)
    (chapters : List Chapter)
    (perGen : Nat → Except String String)
    (perSave perErrSave : Nat → Except String Unit)
    (saveCompleted handler : Except String Unit) : BookJobResult :=
  match fetchTask with
  | .error m => ⟨failTask handler t0 m, chapters⟩
  | .ok _ =>
  match saveProcessing with
  | .error m => ⟨failTask handler t0 m, chapters⟩
  | .ok _ =>
  let t1 : TaskState := { t0 with status := .processing }
  match bookGet with
  | .error m => ⟨t1 :: failTask handler t1 m, chapters⟩
  | .ok _ =>
  let run := contentChapterLoop perGen perSave perErrSave chapters 0
  match run.2 with
  | some m => ⟨t1 :: failTask handler t1 m, run.1⟩
  | none =>
  match saveCompleted with
  | .error m => ⟨t1 :: failTask handler t1 m, run.1⟩
  | .ok _ =>
    ⟨[t1, { t1 with status := .completed, result_id := some bookId }], run.1⟩

/-- Embedding of `regenerate_book_background` (views.py 609-638): task
fetch, processing save, `Book.objects.get`, outline regeneration, book save,
completed save with `result_id = book.id`. -/
def regenerate_book_background (t0 : TaskState) (bookId : Nat)
    (fetchTask saveProcessing bookGet : Except String Unit)
    (outline : Except String BookOutline)
    (bookSave saveCompleted handler : Except String Unit) : List TaskState :=
  match fetchTask with
  | .error m => failTask handler t0 m
  | .ok _ =>
  match saveProcessing with
  | .error m => failTask handler t0 m
  | .ok _ =>
  let t1 : TaskState := { t0 with status := .processing }
  t1 ::
  (match bookGet with
  | .error m => failTask handler t1 m
  | .ok _ =>
  match outline with
  | .error m => failTask handler t1 m
  | .ok _ =>
  match bookSave with
  | .error m => failTask handler t1 m
  | .ok _ =>
  match saveCompleted with
  | .error m => failTask handler t1 m
  | .ok _ => [{ t1 with status := .completed, result_id := some bookId }])

/-- States persisted by `admin_generate_book_content` (views.py 487-514)
before dispatching stage two: the pending task, then the same still-pending
task with `result_id` set to the book id ("Store book_id in result_id
temporarily for reference", lines 502-504). -/
def admin_generate_book_content_viewStates (bookId : Nat) : List TaskState :=
  [pendingTask, { pendingTask with result_id := some bookId }]

/-- Full lifecycle trace of a lesson-generation task: the pending state
persisted by `generate_lesson_view` (views.py 93-99) followed by the
job-persisted states. -/
def lessonTaskTrace (fetchTask saveProcessing : Except String Unit)
    (gen : Except String Json) (topicGetOrCreate : Except String Unit)
    (lessonCreate : Except String Nat)
    (saveCompleted handler : Except String Unit) : List TaskState :=
  pendingTask :: generate_lesson_background pendingTask fetchTask
    saveProcessing gen topicGetOrCreate lessonCreate saveCompleted handler

/-- Full lifecycle trace of a lesson-regeneration task (`regenerate_lesson`,
views.py 226-247, plus its background job). -/
def lessonRegenTaskTrace (lessonId : Nat)
    (fetchTask saveProcessing lessonGet : Except String Unit)
    (gen : Except String Json)
    (lessonSave saveCompleted handler : Except String Unit) : List TaskState :=
  pendingTask :: regenerate_lesson_background pendingTask lessonId fetchTask
    saveProcessing lessonGet gen lessonSave saveCompleted handler

/-- Full lifecycle trace of a book-outline task (`admin_generate_book`,
views.py 379-407, plus stage one). -/
def bookTaskTrace (fetchTask saveProcessing : Except String Unit)
    (outline : Except String BookOutline) (bookCreate : Except String Nat)
    (chapterGen : Nat → Except String String)
    (chapterCreate : Nat → Except String Unit)
    (saveCompleted handler : Except String Unit) : List TaskState :=
  pendingTask :: (generate_book_outline_background pendingTask fetchTask
    saveProcessing outline bookCreate chapterGen chapterCreate saveCompleted
    handler).states

/-- Full lifecycle trace of a book-regeneration task (`regenerate_book`,
views.py 584-606, plus its background job). -/
def bookRegenTaskTrace (bookId : Nat)
    (fetchTask saveProcessing bookGet : Except String Unit)
    (outline : Except String BookOutline)
    (bookSave saveCompleted handler : Except String Unit) : List TaskState :=
  pendingTask :: regenerate_book_background pendingTask bookId fetchTask
    saveProcessing bookGet outline bookSave saveCompleted handler

/-- Full lifecycle trace of a book-content ("chapter") task
(`admin_generate_book_content`, views.py 487-514, plus stage two): the two
view-persisted states, then the job run from the dispatched state. -/
def chapterTaskTrace (bookId : Nat)
    (fetchTask saveProcessing bookGet : Except String Unit)
    (chapters : List Chapter)
    (perGen : Nat → Except String String)
    (perSave perErrSave : Nat → Except String Unit)
    (saveCompleted handler : Except String Unit) : List TaskState :=
  admin_generate_book_content_viewStates bookId ++
    (generate_book_content_background
      { pendingTask with result_id := some bookId } bookId fetchTask
      saveProcessing bookGet chapters perGen perSave perErrSave saveCompleted
      handler).states

/- ## Task status lookup (`generation_status` / `generation_status_api`,
views.py 157-185). -/

/-- Identifying fields of one `GenerationTask` row for lookup scoping. -/
structure TaskRow where
  id : Nat
  user : Nat
deriving DecidableEq, Repr

/-- Embedding of the task lookup shared by `generation_status` (views.py
160) and `generation_status_api` (views.py 167):
`get_object_or_404(GenerationTask, id=task_id, user=request.user)`.  The
filter is unconditionally by task id AND requesting user; `is_superuser` is
available on the request but the lookup never branches on it (`none` models
the 404 response). -/
def generation_status_api (tasks : List TaskRow) (requester : Nat)
    (is_superuser : Bool) (task_id : Nat) : Option TaskRow :=
  tasks.find? (fun t => t.id = task_id && t.user = requester)

/- ## Definitions supporting the claim statements. -/

/-- Invariant claimed for every task state: `result_id` set iff completed,
`error_message` non-empty iff failed (spec section 3 and section 8). -/
def lifecycleInvariant (s : TaskState) : Prop :=
  (s.result_id.isSome ↔ s.status = .completed) ∧
  (s.error_message ≠ "" ↔ s.status = .failed)

instance (s : TaskState) : Decidable (lifecycleInvariant s) := by
  unfold lifecycleInvariant; exact instDecidableAnd

/-- The outcome's fault message, when any, is non-empty (Python `str(e)` of a
real exception; an empty message would make `error_message` blank on a failed
task). -/
def faultNE {α : Type} (x : Except String α) : Prop :=
  ∀ m, x = Except.error m → m ≠ ""

/-- Chapter body produced by stage one for one chapter: the generated content
on success, the inline error marker on an inner-handler catch (views.py
444-449). -/
def contentOf (g : Except String String) : String :=
  match g with
  | .ok c => c
  | .error m => "Error generating content: " ++ m

/-- Chapter body persisted by stage two for one chapter: the generated
content when generation and its save succeed, the inline error marker when
either faults (views.py 538-546). -/
def newContent (g : Except String String) (sv : Except String Unit) : String :=
  match g with
  | .ok c =>
    match sv with
    | .ok _ => c
    | .error m => "Error generating content: " ++ m
  | .error m => "Error generating content: " ++ m

/-- Model of `json.loads` fixed on the well-formed input `[1, 2]` (a JSON
array), erring on everything else. -/
def jparseArrOnly : String → Except String Json := fun s =>
  if s = "[1, 2]" then .ok (.arr [.num 1, .num 2])
  else .error "Expecting value: line 1 column 1 (char 0)"

/-- Model of `json.loads` fixed on a well-formed object whose `content`
string holds a flattened markdown table. -/
def jparseContentTable : String → Except String Json := fun s =>
  if s = "\x7b\"content\": \"| a | | :--- |\"\x7d" then
    .ok (.obj [("content", .str "| a | | :--- |")])
  else .error "Expecting value: line 1 column 1 (char 0)"

/-- Model of `json.loads` fixed on a well-formed object with no `content`
field. -/
def jparseTitleOnly : String → Except String Json := fun s =>
  if s = "\x7b\"title\": \"T\"\x7d" then .ok (.obj [("title", .str "T")])
  else .error "Expecting value: line 1 column 1 (char 0)"

/-- Head of a nonempty list is a member. -/
theorem headI_mem_of_ne_nil {l : List ℚ} (h : l ≠ []) : l.headI ∈ l := by
  cases l with
  | nil => exact absurd rfl h
  | cons a t => exact List.mem_cons_self a t

/-- Evaluation of one admission check at a concrete instant: a caller with 15
stored timestamps at instant 0 asking again at 59.5 seconds is rejected with
`wait_seconds = 0` and an unchanged cache entry. -/
theorem rate_limit_at_59_5 :
    rate_limit 15 (119/2) (List.replicate 15 0) =
      (.rejected 0, List.replicate 15 0) := by
  have hf : (List.replicate 15 (0:ℚ)).filter (fun t => decide ((119:ℚ)/2 - 60 < t)) =
      List.replicate 15 0 := by
    rw [List.filter_replicate]
    norm_num
  have hh : (List.replicate 15 (0:ℚ)).headI = 0 := rfl
  simp only [rate_limit, hf, hh]
  norm_num [pyInt]

/-- C3 counterexample: the claim demands a positive `retry_after_seconds` on
the 16th request inside the window, but with all 15 surviving timestamps aged
59.5 seconds the code computes `int(60 - 59.5) = 0`, which is not positive. -/
theorem rate_limit_zero_wait_counterexample :
    (rate_limit 15 (119/2) (List.replicate 15 0)).1 = .rejected 0 ∧
    ¬ 0 < (0 : ℤ) := by
  rw [rate_limit_at_59_5]
  exact ⟨rfl, by norm_num⟩

/-- C3 (amended): with 15 timestamps surviving the 60-second window, the next
admission check is rejected with `wait_seconds = int(60 - age_of_oldest)`,
which is always nonnegative and is positive whenever the oldest surviving
timestamp is at most 59 seconds old (truncation makes it 0 once the oldest
timestamp is older than 59 seconds); and any caller whose surviving-timestamp
count is below the ceiling — in particular after the window slides past the
oldest timestamp — is admitted. -/
theorem rate_limit_window_amended (now : ℚ) (stored : List ℚ)
    (h : 15 ≤ (stored.filter (fun t => now - 60 < t)).length) :
    ((rate_limit 15 now stored).1 =
      .rejected (pyInt (60 - (now - (stored.filter (fun t => now - 60 < t)).headI))) ∧
     0 ≤ pyInt (60 - (now - (stored.filter (fun t => now - 60 < t)).headI)) ∧
     (now - (stored.filter (fun t => now - 60 < t)).headI ≤ 59 →
       1 ≤ pyInt (60 - (now - (stored.filter (fun t => now - 60 < t)).headI))) ∧
     ∀ now2 stored2, ((stored2 : List ℚ).filter (fun t => now2 - 60 < t)).length < 15 →
       (rate_limit 15 now2 stored2).1 = .allowed) := by
  have hne : (stored.filter (fun t => now - 60 < t)) ≠ [] := by
    intro he; rw [he] at h; simp at h
  have hmem := headI_mem_of_ne_nil hne
  have hcut : now - 60 < (stored.filter (fun t => now - 60 < t)).headI := by
    have := List.of_mem_filter hmem
    exact of_decide_eq_true this
  set t0 := (stored.filter (fun t => now - 60 < t)).headI with ht0
  have hq : (0 : ℚ) < 60 - (now - t0) := by linarith
  refine ⟨?_, ?_, ?_, ?_⟩
  · simp only [rate_limit]
    rw [if_pos h]
  · unfold pyInt
    rw [if_pos (le_of_lt hq)]
    exact Int.le_floor.mpr (by exact_mod_cast le_of_lt hq)
  · intro h59
    unfold pyInt
    rw [if_pos (le_of_lt hq)]
    refine Int.le_floor.mpr ?_
    push_cast
    linarith
  · intro now2 stored2 hlt
    simp only [rate_limit]
    rw [if_neg (by omega)]

/-- Witness for C3 (amended) at a concrete input: 15 timestamps at instant
40, a 16th request at instant 90 is rejected with a positive wait. -/
theorem rate_limit_window_amended_witness :
    (rate_limit 15 90 (List.replicate 15 (40:ℚ))).1 = .rejected (pyInt (60 - (90 - 40))) ∧
    (1:ℤ) ≤ pyInt (60 - ((90:ℚ) - 40)) := by
  have hf : (List.replicate 15 (40:ℚ)).filter (fun t => decide ((90:ℚ) - 60 < t)) =
      List.replicate 15 40 := by
    rw [List.filter_replicate]; norm_num
  have hh : (List.replicate 15 (40:ℚ)).headI = 40 := rfl
  have h := rate_limit_window_amended 90 (List.replicate 15 40) (by rw [hf]; simp)
  rw [hf, hh] at h
  exact ⟨h.1, h.2.2.1 (by norm_num)⟩

/-- C10: a rejected admission check leaves the stored timestamp list for the
caller unchanged — the rejection path performs no cache write, so rejected
attempts never consume quota or extend the lockout. -/
theorem rate_limit_reject_state_unchanged (rpm : ℕ) (now : ℚ) (stored : List ℚ) (w : ℤ)
    (h : (rate_limit rpm now stored).1 = .rejected w) :
    (rate_limit rpm now stored).2 = stored := by
  by_cases hc : rpm ≤ (stored.filter (fun t => now - 60 < t)).length
  · simp only [rate_limit]; rw [if_pos hc]
  · exfalso
    simp only [rate_limit] at h
    rw [if_neg hc] at h
    exact RateDecision.noConfusion h

/-- Witness for C10 at a concrete rejected check. -/
theorem rate_limit_reject_state_unchanged_witness :
    (rate_limit 15 (119/2) (List.replicate 15 (0:ℚ))).2 = List.replicate 15 0 :=
  rate_limit_reject_state_unchanged 15 (119/2) (List.replicate 15 0) 0
    (by rw [rate_limit_at_59_5])

/-- C6 counterexample: table-formatting normalization is not idempotent.  On
the input newline-pipe-pipe-pipe, pass 5 (collapse of a doubled pipe at line
start) rewrites without rescanning its own output, so each application removes
one more pipe: a second application changes the text again. -/
theorem fix_table_formatting_not_idempotent :
    fix_table_formatting "\n|||" = "\n||" ∧
    fix_table_formatting (fix_table_formatting "\n|||") = "\n|" ∧
    fix_table_formatting (fix_table_formatting "\n|||") ≠ fix_table_formatting "\n|||" := by
  refine ⟨by decide, by decide, by decide⟩

/-- C6 (amended): normalization is not idempotent in general — a run of
pipes after a newline keeps collapsing by one pipe per application (see the
counterexample) — but a second application is the identity on the
representative flattened-table input of the spec, where one pass fully
normalizes the table. -/
theorem fix_table_formatting_idempotent_on_flattened_table :
    fix_table_formatting (fix_table_formatting "## Intro\n| A | B | | 1 | 2 |") =
      fix_table_formatting "## Intro\n| A | B | | 1 | 2 |" := by decide

/-- C9 counterexample: a requester with elevated privilege (superuser) asking
for a task owned by another user gets NotFound — the lookup filters by
`id` AND `user` unconditionally, with no privilege bypass. -/
theorem generation_status_superuser_scoped_counterexample :
    generation_status_api [⟨1, 1⟩] 2 true 1 = none := by decide

/-- C9 (amended): task lookups are strictly owner-scoped for every
requester.  Any returned task is owned by the requester and matches the id;
the outcome is independent of the privilege flag; and an owner whose task is
present always gets a task back (their own). -/
theorem generation_status_owner_scoped (tasks : List TaskRow) (requester : Nat)
    (su : Bool) (task_id : Nat) :
    (∀ t, generation_status_api tasks requester su task_id = some t →
      t.user = requester ∧ t.id = task_id ∧ t ∈ tasks) ∧
    (∀ su2, generation_status_api tasks requester su task_id =
      generation_status_api tasks requester su2 task_id) ∧
    (∀ t ∈ tasks, t.id = task_id → t.user = requester →
      ∃ t2, generation_status_api tasks requester su task_id = some t2 ∧
        t2.id = task_id ∧ t2.user = requester) := by
  refine ⟨?_, fun su2 => rfl, ?_⟩
  · intro t ht
    have hp := List.find?_some ht
    have hm := List.mem_of_find?_eq_some ht
    simp only [Bool.and_eq_true, decide_eq_true_eq] at hp
    exact ⟨hp.2, hp.1, hm⟩
  · intro t htm hid hu
    have hs : (tasks.find? (fun t => t.id = task_id && t.user = requester)).isSome := by
      rw [List.find?_isSome]
      exact ⟨t, htm, by simp [hid, hu]⟩
    obtain ⟨t2, ht2⟩ := Option.isSome_iff_exists.mp hs
    have hp := List.find?_some ht2
    simp only [Bool.and_eq_true, decide_eq_true_eq] at hp
    exact ⟨t2, ht2, hp.1, hp.2⟩

/-- Witness for C9 (amended): the owner of task 1 retrieves it. -/
theorem generation_status_owner_scoped_witness :
    generation_status_api [⟨1, 1⟩] 1 false 1 = some ⟨1, 1⟩ := by
  obtain ⟨t2, he, hid, hu⟩ :=
    (generation_status_owner_scoped [⟨1, 1⟩] 1 false 1).2.2 ⟨1, 1⟩ (by simp) rfl rfl
  obtain ⟨i, u⟩ := t2
  simp only at hid hu
  subst hid; subst hu
  exact he

/-- Every branch of the decode-error repair cascade returns a mapping. -/
theorem jsonDecodeBranch_isObj (jparse : String → Except String Json) (t je : String) :
    (jsonDecodeBranch jparse t je).isObj = true := by
  unfold jsonDecodeBranch
  split
  · rfl
  · dsimp only
    repeat' split
    all_goals rfl

/-- C4 counterexample: on the well-formed JSON input `[1, 2]` the strict
parse succeeds with a list, `'content' in result` is a membership test on
that list (False), and the list itself — not a mapping — is returned, so
"always returns a structured mapping" fails. -/
theorem repair_nonmapping_counterexample :
    generate_content jparseArrOnly (.ok "[1, 2]") = .ok (.arr [.num 1, .num 2]) ∧
    (Json.arr [.num 1, .num 2]).isObj = false := ⟨rfl, rfl⟩

/-- C4 (amended): `generate_content` never raises — every execution path
ends in the `except` handlers or a normal return — and the result is a
structured mapping except possibly when the strict JSON parse succeeded, in
which case the parsed value is returned whatever its JSON type. -/
theorem repair_never_raises_amended (jparse : String → Except String Json)
    (apiCall : Except String String) :
    ∃ j, generate_content jparse apiCall = .ok j ∧
      (j.isObj = true ∨ ∃ raw v, apiCall = .ok raw ∧ jparse raw = .ok v) := by
  match apiCall with
  | .error e => exact ⟨errorFallback e, rfl, .inl rfl⟩
  | .ok raw =>
    match hj : jparse raw with
    | .error je =>
      refine ⟨jsonDecodeBranch jparse raw je, ?_, .inl ?_⟩
      · simp [generate_content, hj]
      · exact jsonDecodeBranch_isObj jparse raw je
    | .ok v =>
      match hs : strictBranch v with
      | .ok r => exact ⟨r, by simp [generate_content, hj, hs], .inr ⟨raw, v, rfl, hj⟩⟩
      | .error e => exact ⟨errorFallback e, by simp [generate_content, hj, hs], .inl rfl⟩

/-- Absent key: the membership test is false. -/
theorem lookupField_none_any (fs : List (String × Json)) (k : String)
    (h : lookupField fs k = none) : fs.any (fun p => p.1 = k) = false := by
  unfold lookupField at h
  rw [Option.map_eq_none'] at h
  rw [List.any_eq_false]
  intro x hx
  have := List.find?_eq_none.mp h x hx
  simpa using this

/-- Present key: the membership test is true. -/
theorem lookupField_some_any (fs : List (String × Json)) (k : String) (v : Json)
    (h : lookupField fs k = some v) : fs.any (fun p => p.1 = k) = true := by
  unfold lookupField at h
  obtain ⟨p, hp, hv⟩ := Option.map_eq_some'.mp h
  rw [List.any_eq_true]
  have hb := List.find?_some hp
  exact ⟨p, List.mem_of_find?_eq_some hp, hb⟩

/-- Strict-parse branch on an object without a `content` key returns it
unchanged. -/
theorem strictBranch_obj_none (fs : List (String × Json))
    (hn : lookupField fs "content" = none) :
    strictBranch (.obj fs) = .ok (.obj fs) := by
  have ha := lookupField_none_any fs "content" hn
  unfold strictBranch pyIn
  dsimp only
  rw [ha]
  rfl

/-- Strict-parse branch on an object with a string `content` field
normalizes exactly that field. -/
theorem strictBranch_obj_str (fs : List (String × Json)) (s : String)
    (hsome : lookupField fs "content" = some (.str s)) :
    strictBranch (.obj fs) =
      .ok (.obj (setField fs "content" (.str (fix_table_formatting s)))) := by
  have ha := lookupField_some_any fs "content" _ hsome
  unfold strictBranch pyIn
  dsimp only
  rw [ha, hsome]
  rfl

/-- Strict-parse branch on an object whose `content` field is present but not
a string: `re.sub` on the non-string value raises `TypeError`, surfaced here
as the error branch (caught by the outer `except Exception` handler). -/
theorem strictBranch_obj_nonstr (fs : List (String × Json)) (v : Json)
    (hsome : lookupField fs "content" = some v) (hns : ∀ s, v ≠ .str s) :
    strictBranch (.obj fs) = .error "expected string or bytes-like object" := by
  have ha := lookupField_some_any fs "content" v hsome
  unfold strictBranch pyIn
  dsimp only
  rw [ha, hsome]
  cases v with
  | str s => exact absurd rfl (hns s)
  | null => rfl
  | bool b => rfl
  | num n => rfl
  | arr xs => rfl
  | obj fs2 => rfl

/-- C5 (amended): on well-formed JSON input parsing to an object, the repair
engine returns exactly the strict-parse result — no field added, removed or
rewritten — when no `content` field is present; a string-valued `content`
field has exactly that field rewritten by table-formatting normalization;
and a `content` field holding a non-string makes the normalization step
raise `TypeError`, which the outer handler converts to the error-shaped
fallback, so the strict-parse equality fails wholesale in that case. -/
theorem repair_strict_parse_amended (jparse : String → Except String Json)
    (raw : String) (fs : List (String × Json))
    (hp : jparse raw = .ok (.obj fs)) :
    (lookupField fs "content" = none →
      generate_content jparse (.ok raw) = .ok (.obj fs)) ∧
    (∀ s, lookupField fs "content" = some (.str s) →
      generate_content jparse (.ok raw) =
        .ok (.obj (setField fs "content" (.str (fix_table_formatting s))))) ∧
    (∀ v, lookupField fs "content" = some v → (∀ s, v ≠ .str s) →
      generate_content jparse (.ok raw) =
        .ok (errorFallback "expected string or bytes-like object")) := by
  refine ⟨?_, ?_, ?_⟩
  · intro hn
    simp [generate_content, hp, strictBranch_obj_none fs hn]
  · intro s hsome
    simp [generate_content, hp, strictBranch_obj_str fs s hsome]
  · intro v hsome hns
    simp [generate_content, hp, strictBranch_obj_nonstr fs v hsome hns]

/-- Witness for C5 (amended): a well-formed object without a `content` field
is returned unchanged. -/
theorem repair_strict_parse_amended_witness :
    generate_content jparseTitleOnly (.ok "\x7b\"title\": \"T\"\x7d") =
      .ok (.obj [("title", .str "T")]) :=
  (repair_strict_parse_amended jparseTitleOnly "\x7b\"title\": \"T\"\x7d"
    [("title", .str "T")] rfl).1 rfl

/-- C5 counterexample: the claim says the result of a well-formed JSON input
equals the strict parse with no field rewritten, but a `content` field
holding a flattened table is rewritten by normalization. -/
theorem repair_rewrites_content_counterexample :
    jparseContentTable "\x7b\"content\": \"| a | | :--- |\"\x7d" =
      .ok (.obj [("content", .str "| a | | :--- |")]) ∧
    generate_content jparseContentTable (.ok "\x7b\"content\": \"| a | | :--- |\"\x7d") =
      .ok (.obj [("content", .str "| a |\n| --- |")]) ∧
    ("| a |\n| --- |" : String) ≠ "| a | | :--- |" := by
  refine ⟨rfl, rfl, by decide⟩

/-- Pointwise-equal index functions give equal `mapIdx` results. -/
theorem mapIdx_congr_fn {α β : Type} (f g : ℕ → α → β) (l : List α)
    (h : ∀ k a, f k a = g k a) : l.mapIdx f = l.mapIdx g := by
  rw [List.mapIdx_eq_enum_map, List.mapIdx_eq_enum_map]
  exact List.map_congr_left (fun p _ => h p.1 p.2)

/-- When every chapter creation succeeds, the stage-one loop creates one row
per stub, in order, with the generated-or-error body. -/
theorem outlineChapterLoop_ok (g : Nat → Except String String)
    (c : Nat → Except String Unit) (hc : ∀ j, c j = .ok ()) :
    ∀ (stubs : List ChapterStub) (i : Nat),
      outlineChapterLoop g c stubs i =
        (stubs.mapIdx (fun k stub =>
          ⟨stub.title.getD ("Chapter " ++ toString (i + k + 1)), stub.summary.getD "",
           contentOf (g (i + k)), i + k⟩), none) := by
  intro stubs
  induction stubs with
  | nil => intro i; simp [outlineChapterLoop]
  | cons stub rest ih =>
    intro i
    unfold outlineChapterLoop
    rw [hc i]
    dsimp only
    rw [ih (i + 1), List.mapIdx_cons]
    refine congrArg (fun l => (_ :: l, none)) ?_
    refine mapIdx_congr_fn _ _ rest (fun k a => ?_)
    have harith : i + (k + 1) = i + 1 + k := by omega
    rw [harith]

/-- When every fallback save succeeds, the stage-two loop rewrites every
chapter row in order with the generated-or-error body and never aborts. -/
theorem contentChapterLoop_ok (g : Nat → Except String String)
    (sv esv : Nat → Except String Unit) (hesv : ∀ j, esv j = .ok ()) :
    ∀ (chs : List Chapter) (i : Nat),
      contentChapterLoop g sv esv chs i =
        (chs.mapIdx (fun k ch => { ch with content := newContent (g (i + k)) (sv (i + k)) }),
         none) := by
  intro chs
  induction chs with
  | nil => intro i; simp [contentChapterLoop]
  | cons ch rest ih =>
    intro i
    unfold contentChapterLoop
    have hstep :
        (match g i with
          | .ok c =>
            match sv i with
            | .ok _ => Except.ok { ch with content := c }
            | .error m =>
              match esv i with
              | .ok _ => Except.ok { ch with content := "Error generating content: " ++ m }
              | .error m2 => Except.error m2
          | .error m =>
            match esv i with
            | .ok _ => Except.ok { ch with content := "Error generating content: " ++ m }
            | .error m2 => Except.error m2) =
          Except.ok { ch with content := newContent (g i) (sv i) } := by
      cases hg : g i with
      | ok cnt =>
        cases hsv : sv i with
        | ok u => simp [newContent, hg, hsv]
        | error m => simp [newContent, hg, hsv, hesv i]
      | error m => simp [newContent, hg, hesv i]
    rw [hstep]
    dsimp only
    rw [ih (i + 1), List.mapIdx_cons]
    refine congrArg (fun l => (_ :: l, none)) ?_
    refine mapIdx_congr_fn _ _ rest (fun k a => ?_)
    have harith : i + (k + 1) = i + 1 + k := by omega
    rw [harith]

/-- A stage-one loop abort message is the fault of some chapter-row
creation. -/
theorem outlineChapterLoop_abort (g : Nat → Except String String)
    (c : Nat → Except String Unit) :
    ∀ (stubs : List ChapterStub) (i : Nat) (m : String),
      (outlineChapterLoop g c stubs i).2 = some m → ∃ j, c j = .error m := by
  intro stubs
  induction stubs with
  | nil => intro i m h; simp [outlineChapterLoop] at h
  | cons stub rest ih =>
    intro i m h
    unfold outlineChapterLoop at h
    dsimp only at h
    cases hc : c i with
    | error m2 =>
      rw [hc] at h
      dsimp only at h
      obtain rfl : m2 = m := Option.some.inj h
      exact ⟨i, hc⟩
    | ok u =>
      rw [hc] at h
      dsimp only at h
      exact ih (i + 1) m h

/-- A stage-two loop abort message is the fault of some fallback save. -/
theorem contentChapterLoop_abort (g : Nat → Except String String)
    (sv esv : Nat → Except String Unit) :
    ∀ (chs : List Chapter) (i : Nat) (m : String),
      (contentChapterLoop g sv esv chs i).2 = some m → ∃ j, esv j = .error m := by
  intro chs
  induction chs with
  | nil => intro i m h; simp [contentChapterLoop] at h
  | cons ch rest ih =>
    intro i m h
    unfold contentChapterLoop at h
    dsimp only at h
    cases hg : g i with
    | ok cnt =>
      cases hsv : sv i with
      | ok u =>
        rw [hg, hsv] at h
        dsimp only at h
        exact ih (i + 1) m h
      | error m1 =>
        cases hesv : esv i with
        | ok u =>
          rw [hg, hsv, hesv] at h
          dsimp only at h
          exact ih (i + 1) m h
        | error m2 =>
          rw [hg, hsv, hesv] at h
          dsimp only at h
          obtain rfl : m2 = m := Option.some.inj h
          exact ⟨i, hesv⟩
    | error m1 =>
      cases hesv : esv i with
      | ok u =>
        rw [hg, hesv] at h
        dsimp only at h
        exact ih (i + 1) m h
      | error m2 =>
        rw [hg, hesv] at h
        dsimp only at h
        obtain rfl : m2 = m := Option.some.inj h
        exact ⟨i, hesv⟩

/-- Terminal-status property of the lesson-generation job when the failure
handler itself succeeds. -/
theorem lessonTaskTrace_terminal (f sp : Except String Unit) (g : Except String Json)
    (tg : Except String Unit) (lc : Except String Nat) (sc : Except String Unit) :
    ∀ s, (lessonTaskTrace f sp g tg lc sc (.ok ())).getLast? = some s →
      (s.status = .completed ∨ s.status = .failed) ∧
      (s.status = .failed → ∃ m, s.error_message = m ∧
        (f = .error m ∨ sp = .error m ∨ g = .error m ∨ tg = .error m ∨
         lc = .error m ∨ sc = .error m)) := by
  intro s hs
  unfold lessonTaskTrace generate_lesson_background failTask at hs
  rcases f with m | ⟨⟩
  · simp at hs; subst hs
    exact ⟨Or.inr rfl, fun _ => ⟨m, rfl, Or.inl rfl⟩⟩
  rcases sp with m | ⟨⟩
  · simp at hs; subst hs
    exact ⟨Or.inr rfl, fun _ => ⟨m, rfl, Or.inr (Or.inl rfl)⟩⟩
  rcases g with m | vg
  · simp at hs; subst hs
    exact ⟨Or.inr rfl, fun _ => ⟨m, rfl, Or.inr (Or.inr (Or.inl rfl))⟩⟩
  rcases tg with m | ⟨⟩
  · simp at hs; subst hs
    exact ⟨Or.inr rfl, fun _ => ⟨m, rfl, Or.inr (Or.inr (Or.inr (Or.inl rfl)))⟩⟩
  rcases lc with m | nl
  · simp at hs; subst hs
    exact ⟨Or.inr rfl, fun _ => ⟨m, rfl, Or.inr (Or.inr (Or.inr (Or.inr (Or.inl rfl))))⟩⟩
  rcases sc with m | ⟨⟩
  · simp at hs; subst hs
    exact ⟨Or.inr rfl, fun _ => ⟨m, rfl, Or.inr (Or.inr (Or.inr (Or.inr (Or.inr rfl))))⟩⟩
  · simp at hs; subst hs
    exact ⟨Or.inl rfl, fun hf => absurd hf (by simp)⟩

/-- Terminal-status property of the lesson-regeneration job when the failure
handler itself succeeds. -/
theorem lessonRegenTaskTrace_terminal (lessonId : Nat)
    (f sp lg : Except String Unit) (g : Except String Json)
    (ls sc : Except String Unit) :
    ∀ s, (lessonRegenTaskTrace lessonId f sp lg g ls sc (.ok ())).getLast? = some s →
      (s.status = .completed ∨ s.status = .failed) ∧
      (s.status = .failed → ∃ m, s.error_message = m ∧
        (f = .error m ∨ sp = .error m ∨ lg = .error m ∨ g = .error m ∨
         ls = .error m ∨ sc = .error m)) := by
  intro s hs
  unfold lessonRegenTaskTrace regenerate_lesson_background failTask at hs
  rcases f with m | ⟨⟩
  · simp at hs; subst hs
    exact ⟨Or.inr rfl, fun _ => ⟨m, rfl, Or.inl rfl⟩⟩
  rcases sp with m | ⟨⟩
  · simp at hs; subst hs
    exact ⟨Or.inr rfl, fun _ => ⟨m, rfl, Or.inr (Or.inl rfl)⟩⟩
  rcases lg with m | ⟨⟩
  · simp at hs; subst hs
    exact ⟨Or.inr rfl, fun _ => ⟨m, rfl, Or.inr (Or.inr (Or.inl rfl))⟩⟩
  rcases g with m | vg
  · simp at hs; subst hs
    exact ⟨Or.inr rfl, fun _ => ⟨m, rfl, Or.inr (Or.inr (Or.inr (Or.inl rfl)))⟩⟩
  rcases ls with m | ⟨⟩
  · simp at hs; subst hs
    exact ⟨Or.inr rfl, fun _ => ⟨m, rfl, Or.inr (Or.inr (Or.inr (Or.inr (Or.inl rfl))))⟩⟩
  rcases sc with m | ⟨⟩
  · simp at hs; subst hs
    exact ⟨Or.inr rfl, fun _ => ⟨m, rfl, Or.inr (Or.inr (Or.inr (Or.inr (Or.inr rfl))))⟩⟩
  · simp at hs; subst hs
    exact ⟨Or.inl rfl, fun hf => absurd hf (by simp)⟩

/-- Terminal-status property of the book-regeneration job when the failure
handler itself succeeds. -/
theorem bookRegenTaskTrace_terminal (bookId : Nat)
    (f sp bg : Except String Unit) (o : Except String BookOutline)
    (bs sc : Except String Unit) :
    ∀ s, (bookRegenTaskTrace bookId f sp bg o bs sc (.ok ())).getLast? = some s →
      (s.status = .completed ∨ s.status = .failed) ∧
      (s.status = .failed → ∃ m, s.error_message = m ∧
        (f = .error m ∨ sp = .error m ∨ bg = .error m ∨ o = .error m ∨
         bs = .error m ∨ sc = .error m)) := by
  intro s hs
  unfold bookRegenTaskTrace regenerate_book_background failTask at hs
  rcases f with m | ⟨⟩
  · simp at hs; subst hs
    exact ⟨Or.inr rfl, fun _ => ⟨m, rfl, Or.inl rfl⟩⟩
  rcases sp with m | ⟨⟩
  · simp at hs; subst hs
    exact ⟨Or.inr rfl, fun _ => ⟨m, rfl, Or.inr (Or.inl rfl)⟩⟩
  rcases bg with m | ⟨⟩
  · simp at hs; subst hs
    exact ⟨Or.inr rfl, fun _ => ⟨m, rfl, Or.inr (Or.inr (Or.inl rfl))⟩⟩
  rcases o with m | od
  · simp at hs; subst hs
    exact ⟨Or.inr rfl, fun _ => ⟨m, rfl, Or.inr (Or.inr (Or.inr (Or.inl rfl)))⟩⟩
  rcases bs with m | ⟨⟩
  · simp at hs; subst hs
    exact ⟨Or.inr rfl, fun _ => ⟨m, rfl, Or.inr (Or.inr (Or.inr (Or.inr (Or.inl rfl))))⟩⟩
  rcases sc with m | ⟨⟩
  · simp at hs; subst hs
    exact ⟨Or.inr rfl, fun _ => ⟨m, rfl, Or.inr (Or.inr (Or.inr (Or.inr (Or.inr rfl))))⟩⟩
  · simp at hs; subst hs
    exact ⟨Or.inl rfl, fun hf => absurd hf (by simp)⟩

/-- Terminal-status property of the book-outline job when the failure
handler itself succeeds. -/
theorem bookTaskTrace_terminal (f sp : Except String Unit)
    (o : Except String BookOutline) (bc : Except String Nat)
    (cg : Nat → Except String String) (cc : Nat → Except String Unit)
    (sc : Except String Unit) :
    ∀ s, (bookTaskTrace f sp o bc cg cc sc (.ok ())).getLast? = some s →
      (s.status = .completed ∨ s.status = .failed) ∧
      (s.status = .failed → ∃ m, s.error_message = m ∧
        (f = .error m ∨ sp = .error m ∨ o = .error m ∨ bc = .error m ∨
         (∃ j, cc j = .error m) ∨ sc = .error m)) := by
  intro s hs
  unfold bookTaskTrace generate_book_outline_background failTask at hs
  rcases f with m | ⟨⟩
  · simp at hs; subst hs
    exact ⟨Or.inr rfl, fun _ => ⟨m, rfl, Or.inl rfl⟩⟩
  rcases sp with m | ⟨⟩
  · simp at hs; subst hs
    exact ⟨Or.inr rfl, fun _ => ⟨m, rfl, Or.inr (Or.inl rfl)⟩⟩
  rcases o with m | od
  · simp at hs; subst hs
    exact ⟨Or.inr rfl, fun _ => ⟨m, rfl, Or.inr (Or.inr (Or.inl rfl))⟩⟩
  rcases bc with m | bid
  · simp at hs; subst hs
    exact ⟨Or.inr rfl, fun _ => ⟨m, rfl, Or.inr (Or.inr (Or.inr (Or.inl rfl)))⟩⟩
  dsimp only at hs
  cases hrun : (outlineChapterLoop cg cc od.chapters 0).2 with
  | some m =>
    rw [hrun] at hs
    simp at hs; subst hs
    exact ⟨Or.inr rfl, fun _ => ⟨m, rfl, Or.inr (Or.inr (Or.inr (Or.inr (Or.inl
      (outlineChapterLoop_abort cg cc od.chapters 0 m hrun)))))⟩⟩
  | none =>
    rw [hrun] at hs
    rcases sc with m | ⟨⟩
    · simp at hs; subst hs
      exact ⟨Or.inr rfl, fun _ => ⟨m, rfl, Or.inr (Or.inr (Or.inr (Or.inr (Or.inr rfl))))⟩⟩
    · simp at hs; subst hs
      exact ⟨Or.inl rfl, fun hf => absurd hf (by simp)⟩

/-- Terminal-status property of the book-content job when the failure
handler itself succeeds. -/
theorem chapterTaskTrace_terminal (bookId : Nat) (f sp bg : Except String Unit)
    (chs : List Chapter) (pg : Nat → Except String String)
    (psv pesv : Nat → Except String Unit) (sc : Except String Unit) :
    ∀ s, (chapterTaskTrace bookId f sp bg chs pg psv pesv sc (.ok ())).getLast? = some s →
      (s.status = .completed ∨ s.status = .failed) ∧
      (s.status = .failed → ∃ m, s.error_message = m ∧
        (f = .error m ∨ sp = .error m ∨ bg = .error m ∨
         (∃ j, pesv j = .error m) ∨ sc = .error m)) := by
  intro s hs
  unfold chapterTaskTrace admin_generate_book_content_viewStates
    generate_book_content_background failTask at hs
  rcases f with m | ⟨⟩
  · simp at hs; subst hs
    exact ⟨Or.inr rfl, fun _ => ⟨m, rfl, Or.inl rfl⟩⟩
  rcases sp with m | ⟨⟩
  · simp at hs; subst hs
    exact ⟨Or.inr rfl, fun _ => ⟨m, rfl, Or.inr (Or.inl rfl)⟩⟩
  rcases bg with m | ⟨⟩
  · simp at hs; subst hs
    exact ⟨Or.inr rfl, fun _ => ⟨m, rfl, Or.inr (Or.inr (Or.inl rfl))⟩⟩
  dsimp only at hs
  cases hrun : (contentChapterLoop pg psv pesv chs 0).2 with
  | some m =>
    rw [hrun] at hs
    simp at hs; subst hs
    exact ⟨Or.inr rfl, fun _ => ⟨m, rfl, Or.inr (Or.inr (Or.inr (Or.inl
      (contentChapterLoop_abort pg psv pesv chs 0 m hrun))))⟩⟩
  | none =>
    rw [hrun] at hs
    rcases sc with m | ⟨⟩
    · simp at hs; subst hs
      exact ⟨Or.inr rfl, fun _ => ⟨m, rfl, Or.inr (Or.inr (Or.inr (Or.inr rfl)))⟩⟩
    · simp at hs; subst hs
      exact ⟨Or.inl rfl, fun hf => absurd hf (by simp)⟩

/-- C2 counterexample: when the generation call faults AND the failure
handler's own task re-fetch/save also faults (for example the database is
down), the thread dies and the task is left in `processing` forever — the
claim that every execution path reaches a terminal status fails. -/
theorem background_job_stuck_processing_counterexample :
    (lessonTaskTrace (.ok ()) (.ok ()) (.error "boom") (.ok ()) (.ok 1) (.ok ())
        (.error "db down")).getLast? =
      some { status := .processing, result_id := none, error_message := "" } ∧
    Status.processing ≠ .completed ∧ Status.processing ≠ .failed := by decide

/-- A failed state with no result id and a non-empty message satisfies the
lifecycle invariant. -/
theorem inv_failed (m : String) (hm : m ≠ "") :
    lifecycleInvariant { status := .failed, result_id := none, error_message := m } := by
  constructor
  · simp
  · simpa using hm

/-- Lifecycle invariant over every persisted state of a lesson-generation
task, given non-empty fault messages. -/
theorem lessonTaskTrace_invariant (f sp : Except String Unit) (g : Except String Json)
    (tg : Except String Unit) (lc : Except String Nat) (sc hd : Except String Unit)
    (h1 : faultNE f) (h2 : faultNE sp) (h3 : faultNE g) (h4 : faultNE tg)
    (h5 : faultNE lc) (h6 : faultNE sc) :
    ∀ s ∈ lessonTaskTrace f sp g tg lc sc hd, lifecycleInvariant s := by
  intro s hs
  unfold lessonTaskTrace generate_lesson_background failTask pendingTask at hs
  rcases f with m | ⟨⟩
  · rcases hd with m2 | ⟨⟩
    · simp at hs; subst hs; decide
    · simp at hs
      rcases hs with rfl | rfl
      · decide
      · exact inv_failed m (h1 m rfl)
  rcases sp with m | ⟨⟩
  · rcases hd with m2 | ⟨⟩
    · simp at hs; subst hs; decide
    · simp at hs
      rcases hs with rfl | rfl
      · decide
      · exact inv_failed m (h2 m rfl)
  rcases g with m | vg
  · rcases hd with m2 | ⟨⟩
    · simp at hs
      rcases hs with rfl | rfl
      · decide
      · decide
    · simp at hs
      rcases hs with rfl | rfl | rfl
      · decide
      · decide
      · exact inv_failed m (h3 m rfl)
  rcases tg with m | ⟨⟩
  · rcases hd with m2 | ⟨⟩
    · simp at hs
      rcases hs with rfl | rfl
      · decide
      · decide
    · simp at hs
      rcases hs with rfl | rfl | rfl
      · decide
      · decide
      · exact inv_failed m (h4 m rfl)
  rcases lc with m | nl
  · rcases hd with m2 | ⟨⟩
    · simp at hs
      rcases hs with rfl | rfl
      · decide
      · decide
    · simp at hs
      rcases hs with rfl | rfl | rfl
      · decide
      · decide
      · exact inv_failed m (h5 m rfl)
  rcases sc with m | ⟨⟩
  · rcases hd with m2 | ⟨⟩
    · simp at hs
      rcases hs with rfl | rfl
      · decide
      · decide
    · simp at hs
      rcases hs with rfl | rfl | rfl
      · decide
      · decide
      · exact inv_failed m (h6 m rfl)
  · simp at hs
    rcases hs with rfl | rfl | rfl
    · decide
    · decide
    · constructor <;> simp

/-- Lifecycle invariant over every persisted state of a lesson-regeneration
task, given non-empty fault messages. -/
theorem lessonRegenTaskTrace_invariant (lessonId : Nat)
    (f sp lg : Except String Unit) (g : Except String Json)
    (ls sc hd : Except String Unit)
    (h1 : faultNE f) (h2 : faultNE sp) (h3 : faultNE lg) (h4 : faultNE g)
    (h5 : faultNE ls) (h6 : faultNE sc) :
    ∀ s ∈ lessonRegenTaskTrace lessonId f sp lg g ls sc hd, lifecycleInvariant s := by
  intro s hs
  unfold lessonRegenTaskTrace regenerate_lesson_background failTask pendingTask at hs
  rcases f with m | ⟨⟩
  · rcases hd with m2 | ⟨⟩
    · simp at hs; subst hs; decide
    · simp at hs
      rcases hs with rfl | rfl
      · decide
      · exact inv_failed m (h1 m rfl)
  rcases sp with m | ⟨⟩
  · rcases hd with m2 | ⟨⟩
    · simp at hs; subst hs; decide
    · simp at hs
      rcases hs with rfl | rfl
      · decide
      · exact inv_failed m (h2 m rfl)
  rcases lg with m | ⟨⟩
  · rcases hd with m2 | ⟨⟩
    · simp at hs
      rcases hs with rfl | rfl
      · decide
      · decide
    · simp at hs
      rcases hs with rfl | rfl | rfl
      · decide
      · decide
      · exact inv_failed m (h3 m rfl)
  rcases g with m | vg
  · rcases hd with m2 | ⟨⟩
    · simp at hs
      rcases hs with rfl | rfl
      · decide
      · decide
    · simp at hs
      rcases hs with rfl | rfl | rfl
      · decide
      · decide
      · exact inv_failed m (h4 m rfl)
  rcases ls with m | ⟨⟩
  · rcases hd with m2 | ⟨⟩
    · simp at hs
      rcases hs with rfl | rfl
      · decide
      · decide
    · simp at hs
      rcases hs with rfl | rfl | rfl
      · decide
      · decide
      · exact inv_failed m (h5 m rfl)
  rcases sc with m | ⟨⟩
  · rcases hd with m2 | ⟨⟩
    · simp at hs
      rcases hs with rfl | rfl
      · decide
      · decide
    · simp at hs
      rcases hs with rfl | rfl | rfl
      · decide
      · decide
      · exact inv_failed m (h6 m rfl)
  · simp at hs
    rcases hs with rfl | rfl | rfl
    · decide
    · decide
    · constructor <;> simp

/-- Lifecycle invariant over every persisted state of a book-regeneration
task, given non-empty fault messages. -/
theorem bookRegenTaskTrace_invariant (bookId : Nat)
    (f sp bg : Except String Unit) (o : Except String BookOutline)
    (bs sc hd : Except String Unit)
    (h1 : faultNE f) (h2 : faultNE sp) (h3 : faultNE bg) (h4 : faultNE o)
    (h5 : faultNE bs) (h6 : faultNE sc) :
    ∀ s ∈ bookRegenTaskTrace bookId f sp bg o bs sc hd, lifecycleInvariant s := by
  intro s hs
  unfold bookRegenTaskTrace regenerate_book_background failTask pendingTask at hs
  rcases f with m | ⟨⟩
  · rcases hd with m2 | ⟨⟩
    · simp at hs; subst hs; decide
    · simp at hs
      rcases hs with rfl | rfl
      · decide
      · exact inv_failed m (h1 m rfl)
  rcases sp with m | ⟨⟩
  · rcases hd with m2 | ⟨⟩
    · simp at hs; subst hs; decide
    · simp at hs
      rcases hs with rfl | rfl
      · decide
      · exact inv_failed m (h2 m rfl)
  rcases bg with m | ⟨⟩
  · rcases hd with m2 | ⟨⟩
    · simp at hs
      rcases hs with rfl | rfl
      · decide
      · decide
    · simp at hs
      rcases hs with rfl | rfl | rfl
      · decide
      · decide
      · exact inv_failed m (h3 m rfl)
  rcases o with m | od
  · rcases hd with m2 | ⟨⟩
    · simp at hs
      rcases hs with rfl | rfl
      · decide
      · decide
    · simp at hs
      rcases hs with rfl | rfl | rfl
      · decide
      · decide
      · exact inv_failed m (h4 m rfl)
  rcases bs with m | ⟨⟩
  · rcases hd with m2 | ⟨⟩
    · simp at hs
      rcases hs with rfl | rfl
      · decide
      · decide
    · simp at hs
      rcases hs with rfl | rfl | rfl
      · decide
      · decide
      · exact inv_failed m (h5 m rfl)
  rcases sc with m | ⟨⟩
  · rcases hd with m2 | ⟨⟩
    · simp at hs
      rcases hs with rfl | rfl
      · decide
      · decide
    · simp at hs
      rcases hs with rfl | rfl | rfl
      · decide
      · decide
      · exact inv_failed m (h6 m rfl)
  · simp at hs
    rcases hs with rfl | rfl | rfl
    · decide
    · decide
    · constructor <;> simp

/-- Lifecycle invariant over every persisted state of a book-outline task,
given non-empty fault messages. -/
theorem bookTaskTrace_invariant (f sp : Except String Unit)
    (o : Except String BookOutline) (bc : Except String Nat)
    (cg : Nat → Except String String) (cc : Nat → Except String Unit)
    (sc hd : Except String Unit)
    (h1 : faultNE f) (h2 : faultNE sp) (h3 : faultNE o) (h4 : faultNE bc)
    (h5 : ∀ j, faultNE (cc j)) (h6 : faultNE sc) :
    ∀ s ∈ bookTaskTrace f sp o bc cg cc sc hd, lifecycleInvariant s := by
  intro s hs
  unfold bookTaskTrace generate_book_outline_background failTask pendingTask at hs
  rcases f with m | ⟨⟩
  · rcases hd with m2 | ⟨⟩
    · simp at hs; subst hs; decide
    · simp at hs
      rcases hs with rfl | rfl
      · decide
      · exact inv_failed m (h1 m rfl)
  rcases sp with m | ⟨⟩
  · rcases hd with m2 | ⟨⟩
    · simp at hs; subst hs; decide
    · simp at hs
      rcases hs with rfl | rfl
      · decide
      · exact inv_failed m (h2 m rfl)
  rcases o with m | od
  · rcases hd with m2 | ⟨⟩
    · simp at hs
      rcases hs with rfl | rfl
      · decide
      · decide
    · simp at hs
      rcases hs with rfl | rfl | rfl
      · decide
      · decide
      · exact inv_failed m (h3 m rfl)
  rcases bc with m | bid
  · rcases hd with m2 | ⟨⟩
    · simp at hs
      rcases hs with rfl | rfl
      · decide
      · decide
    · simp at hs
      rcases hs with rfl | rfl | rfl
      · decide
      · decide
      · exact inv_failed m (h4 m rfl)
  dsimp only at hs
  cases hrun : (outlineChapterLoop cg cc od.chapters 0).2 with
  | some m =>
    rw [hrun] at hs
    obtain ⟨j, hj⟩ := outlineChapterLoop_abort cg cc od.chapters 0 m hrun
    rcases hd with m2 | ⟨⟩
    · simp at hs
      rcases hs with rfl | rfl
      · decide
      · decide
    · simp at hs
      rcases hs with rfl | rfl | rfl
      · decide
      · decide
      · exact inv_failed m (h5 j m hj)
  | none =>
    rw [hrun] at hs
    rcases sc with m | ⟨⟩
    · rcases hd with m2 | ⟨⟩
      · simp at hs
        rcases hs with rfl | rfl
        · decide
        · decide
      · simp at hs
        rcases hs with rfl | rfl | rfl
        · decide
        · decide
        · exact inv_failed m (h6 m rfl)
    · simp at hs
      rcases hs with rfl | rfl | rfl
      · decide
      · decide
      · constructor <;> simp

/-- Failed-status form of the error-message biconditional. -/
theorem erriff_failed (m : String) (hm : m ≠ "") :
    (m ≠ "" ↔ Status.failed = Status.failed) := by simpa using hm

/-- Error-message biconditional over every persisted state of a book-content
task, given non-empty fault messages. -/
theorem chapterTaskTrace_error_iff (bookId : Nat) (f sp bg : Except String Unit)
    (chs : List Chapter) (pg : Nat → Except String String)
    (psv pesv : Nat → Except String Unit) (sc hd : Except String Unit)
    (h1 : faultNE f) (h2 : faultNE sp) (h3 : faultNE bg)
    (h4 : ∀ j, faultNE (pesv j)) (h5 : faultNE sc) :
    ∀ s ∈ chapterTaskTrace bookId f sp bg chs pg psv pesv sc hd,
      (s.error_message ≠ "" ↔ s.status = .failed) := by
  intro s hs
  unfold chapterTaskTrace admin_generate_book_content_viewStates
    generate_book_content_background failTask pendingTask at hs
  rcases f with m | ⟨⟩
  · rcases hd with m2 | ⟨⟩
    · simp at hs
      rcases hs with rfl | rfl
      · simp
      · simp
    · simp at hs
      rcases hs with rfl | rfl | rfl
      · simp
      · simp
      · exact erriff_failed m (h1 m rfl)
  rcases sp with m | ⟨⟩
  · rcases hd with m2 | ⟨⟩
    · simp at hs
      rcases hs with rfl | rfl
      · simp
      · simp
    · simp at hs
      rcases hs with rfl | rfl | rfl
      · simp
      · simp
      · exact erriff_failed m (h2 m rfl)
  rcases bg with m | ⟨⟩
  · rcases hd with m2 | ⟨⟩
    · simp at hs
      rcases hs with rfl | rfl | rfl
      · simp
      · simp
      · simp
    · simp at hs
      rcases hs with rfl | rfl | rfl | rfl
      · simp
      · simp
      · simp
      · exact erriff_failed m (h3 m rfl)
  dsimp only at hs
  cases hrun : (contentChapterLoop pg psv pesv chs 0).2 with
  | some m =>
    rw [hrun] at hs
    obtain ⟨j, hj⟩ := contentChapterLoop_abort pg psv pesv chs 0 m hrun
    rcases hd with m2 | ⟨⟩
    · simp at hs
      rcases hs with rfl | rfl | rfl
      · simp
      · simp
      · simp
    · simp at hs
      rcases hs with rfl | rfl | rfl | rfl
      · simp
      · simp
      · simp
      · exact erriff_failed m (h4 j m hj)
  | none =>
    rw [hrun] at hs
    rcases sc with m | ⟨⟩
    · rcases hd with m2 | ⟨⟩
      · simp at hs
        rcases hs with rfl | rfl | rfl
        · simp
        · simp
        · simp
      · simp at hs
        rcases hs with rfl | rfl | rfl | rfl
        · simp
        · simp
        · simp
        · exact erriff_failed m (h5 m rfl)
    · simp at hs
      rcases hs with rfl | rfl | rfl | rfl
      · simp
      · simp
      · simp
      · simp

/-- From its second persisted state on (the dispatch-time write), a
book-content task always has `result_id` set to the book id, whatever its
status. -/
theorem chapterTaskTrace_result_id (bookId : Nat) (f sp bg : Except String Unit)
    (chs : List Chapter) (pg : Nat → Except String String)
    (psv pesv : Nat → Except String Unit) (sc hd : Except String Unit) :
    ∀ s ∈ (chapterTaskTrace bookId f sp bg chs pg psv pesv sc hd).tail,
      s.result_id = some bookId := by
  intro s hs
  unfold chapterTaskTrace admin_generate_book_content_viewStates
    generate_book_content_background failTask pendingTask at hs
  rcases f with m | ⟨⟩
  · rcases hd with m2 | ⟨⟩
    · simp at hs; subst hs; rfl
    · simp at hs
      rcases hs with rfl | rfl
      · rfl
      · rfl
  rcases sp with m | ⟨⟩
  · rcases hd with m2 | ⟨⟩
    · simp at hs; subst hs; rfl
    · simp at hs
      rcases hs with rfl | rfl
      · rfl
      · rfl
  rcases bg with m | ⟨⟩
  · rcases hd with m2 | ⟨⟩
    · simp at hs
      rcases hs with rfl | rfl
      · rfl
      · rfl
    · simp at hs
      rcases hs with rfl | rfl | rfl
      · rfl
      · rfl
      · rfl
  dsimp only at hs
  cases hrun : (contentChapterLoop pg psv pesv chs 0).2 with
  | some m =>
    rw [hrun] at hs
    rcases hd with m2 | ⟨⟩
    · simp at hs
      rcases hs with rfl | rfl
      · rfl
      · rfl
    · simp at hs
      rcases hs with rfl | rfl | rfl
      · rfl
      · rfl
      · rfl
  | none =>
    rw [hrun] at hs
    rcases sc with m | ⟨⟩
    · rcases hd with m2 | ⟨⟩
      · simp at hs
        rcases hs with rfl | rfl
        · rfl
        · rfl
      · simp at hs
        rcases hs with rfl | rfl | rfl
        · rfl
        · rfl
        · rfl
    · simp at hs
      rcases hs with rfl | rfl | rfl
      · rfl
      · rfl
      · rfl

/-- C1 (amended): provided fault messages are non-empty, the invariant
"`result_id` set iff completed, `error_message` non-empty iff failed" holds
at every lifecycle point of lesson, lesson-regeneration, book-outline and
book-regeneration tasks.  For book-content ("chapter") tasks the second half
still holds at every point, but `result_id` is set to the book id from the
dispatch-time write onward in every status — pending, processing, completed
and failed alike — so only the error-message half of the claimed invariant
survives for them. -/
theorem task_result_error_invariant_amended :
    (∀ (f sp : Except String Unit) (g : Except String Json)
       (tg : Except String Unit) (lc : Except String Nat) (sc hd : Except String Unit),
      faultNE f → faultNE sp → faultNE g → faultNE tg → faultNE lc → faultNE sc →
      ∀ s ∈ lessonTaskTrace f sp g tg lc sc hd, lifecycleInvariant s) ∧
    (∀ (lessonId : Nat) (f sp lg : Except String Unit) (g : Except String Json)
       (ls sc hd : Except String Unit),
      faultNE f → faultNE sp → faultNE lg → faultNE g → faultNE ls → faultNE sc →
      ∀ s ∈ lessonRegenTaskTrace lessonId f sp lg g ls sc hd, lifecycleInvariant s) ∧
    (∀ (f sp : Except String Unit) (o : Except String BookOutline)
       (bc : Except String Nat) (cg : Nat → Except String String)
       (cc : Nat → Except String Unit) (sc hd : Except String Unit),
      faultNE f → faultNE sp → faultNE o → faultNE bc → (∀ j, faultNE (cc j)) →
      faultNE sc →
      ∀ s ∈ bookTaskTrace f sp o bc cg cc sc hd, lifecycleInvariant s) ∧
    (∀ (bookId : Nat) (f sp bg : Except String Unit) (o : Except String BookOutline)
       (bs sc hd : Except String Unit),
      faultNE f → faultNE sp → faultNE bg → faultNE o → faultNE bs → faultNE sc →
      ∀ s ∈ bookRegenTaskTrace bookId f sp bg o bs sc hd, lifecycleInvariant s) ∧
    (∀ (bookId : Nat) (f sp bg : Except String Unit) (chs : List Chapter)
       (pg : Nat → Except String String) (psv pesv : Nat → Except String Unit)
       (sc hd : Except String Unit),
      faultNE f → faultNE sp → faultNE bg → (∀ j, faultNE (pesv j)) → faultNE sc →
      ∀ s ∈ chapterTaskTrace bookId f sp bg chs pg psv pesv sc hd,
        (s.error_message ≠ "" ↔ s.status = .failed)) ∧
    (∀ (bookId : Nat) (f sp bg : Except String Unit) (chs : List Chapter)
       (pg : Nat → Except String String) (psv pesv : Nat → Except String Unit)
       (sc hd : Except String Unit),
      ∀ s ∈ (chapterTaskTrace bookId f sp bg chs pg psv pesv sc hd).tail,
        s.result_id = some bookId) :=
  ⟨fun f sp g tg lc sc hd h1 h2 h3 h4 h5 h6 =>
      lessonTaskTrace_invariant f sp g tg lc sc hd h1 h2 h3 h4 h5 h6,
   fun lid f sp lg g ls sc hd h1 h2 h3 h4 h5 h6 =>
      lessonRegenTaskTrace_invariant lid f sp lg g ls sc hd h1 h2 h3 h4 h5 h6,
   fun f sp o bc cg cc sc hd h1 h2 h3 h4 h5 h6 =>
      bookTaskTrace_invariant f sp o bc cg cc sc hd h1 h2 h3 h4 h5 h6,
   fun bid f sp bg o bs sc hd h1 h2 h3 h4 h5 h6 =>
      bookRegenTaskTrace_invariant bid f sp bg o bs sc hd h1 h2 h3 h4 h5 h6,
   fun bid f sp bg chs pg psv pesv sc hd h1 h2 h3 h4 h5 =>
      chapterTaskTrace_error_iff bid f sp bg chs pg psv pesv sc hd h1 h2 h3 h4 h5,
   fun bid f sp bg chs pg psv pesv sc hd =>
      chapterTaskTrace_result_id bid f sp bg chs pg psv pesv sc hd⟩

/-- C1 counterexample: `admin_generate_book_content` stores the book id in
`result_id` while the task is still `pending` ("Store book_id in result_id
temporarily for reference"), so a state with `result_id` set and status not
`completed` is persisted, violating the claimed invariant. -/
theorem task_result_id_set_while_pending_counterexample :
    ({ pendingTask with result_id := some 7 } ∈
      chapterTaskTrace 7 (.ok ()) (.ok ()) (.ok ()) [] (fun _ => .ok "")
        (fun _ => .ok ()) (fun _ => .ok ()) (.ok ()) (.ok ())) ∧
    ¬ lifecycleInvariant { pendingTask with result_id := some 7 } := by
  constructor
  · decide
  · decide

/-- Witness for C1 (amended): the completed state of an all-successful
lesson run satisfies the invariant. -/
theorem task_result_error_invariant_amended_witness :
    lifecycleInvariant
      { status := Status.completed, result_id := some 5, error_message := "" } := by
  have h := task_result_error_invariant_amended.1 (.ok ()) (.ok ()) (.ok Json.null)
    (.ok ()) (.ok 5) (.ok ()) (.ok ())
    (fun m hm => Except.noConfusion hm) (fun m hm => Except.noConfusion hm)
    (fun m hm => Except.noConfusion hm) (fun m hm => Except.noConfusion hm)
    (fun m hm => Except.noConfusion hm) (fun m hm => Except.noConfusion hm)
  exact h { status := .completed, result_id := some 5, error_message := "" } (by decide)

/-- C2 (amended): provided the failure handler's task re-fetch and save
succeed, every execution of each of the five background jobs (lesson
generation, lesson regeneration, book-outline generation, book-content
generation, book regeneration) ends with the task in a terminal status
(`completed` or `failed`), and a failed task records verbatim the message of
one of the faulting operations. -/
theorem background_jobs_reach_terminal_amended :
    (∀ (f sp : Except String Unit) (g : Except String Json)
       (tg : Except String Unit) (lc : Except String Nat) (sc : Except String Unit),
      ∀ s, (lessonTaskTrace f sp g tg lc sc (.ok ())).getLast? = some s →
        (s.status = .completed ∨ s.status = .failed) ∧
        (s.status = .failed → ∃ m, s.error_message = m ∧
          (f = .error m ∨ sp = .error m ∨ g = .error m ∨ tg = .error m ∨
           lc = .error m ∨ sc = .error m))) ∧
    (∀ (lessonId : Nat) (f sp lg : Except String Unit) (g : Except String Json)
       (ls sc : Except String Unit),
      ∀ s, (lessonRegenTaskTrace lessonId f sp lg g ls sc (.ok ())).getLast? = some s →
        (s.status = .completed ∨ s.status = .failed) ∧
        (s.status = .failed → ∃ m, s.error_message = m ∧
          (f = .error m ∨ sp = .error m ∨ lg = .error m ∨ g = .error m ∨
           ls = .error m ∨ sc = .error m))) ∧
    (∀ (f sp : Except String Unit) (o : Except String BookOutline)
       (bc : Except String Nat) (cg : Nat → Except String String)
       (cc : Nat → Except String Unit) (sc : Except String Unit),
      ∀ s, (bookTaskTrace f sp o bc cg cc sc (.ok ())).getLast? = some s →
        (s.status = .completed ∨ s.status = .failed) ∧
        (s.status = .failed → ∃ m, s.error_message = m ∧
          (f = .error m ∨ sp = .error m ∨ o = .error m ∨ bc = .error m ∨
           (∃ j, cc j = .error m) ∨ sc = .error m))) ∧
    (∀ (bookId : Nat) (f sp bg : Except String Unit) (o : Except String BookOutline)
       (bs sc : Except String Unit),
      ∀ s, (bookRegenTaskTrace bookId f sp bg o bs sc (.ok ())).getLast? = some s →
        (s.status = .completed ∨ s.status = .failed) ∧
        (s.status = .failed → ∃ m, s.error_message = m ∧
          (f = .error m ∨ sp = .error m ∨ bg = .error m ∨ o = .error m ∨
           bs = .error m ∨ sc = .error m))) ∧
    (∀ (bookId : Nat) (f sp bg : Except String Unit) (chs : List Chapter)
       (pg : Nat → Except String String) (psv pesv : Nat → Except String Unit)
       (sc : Except String Unit),
      ∀ s, (chapterTaskTrace bookId f sp bg chs pg psv pesv sc (.ok ())).getLast? = some s →
        (s.status = .completed ∨ s.status = .failed) ∧
        (s.status = .failed → ∃ m, s.error_message = m ∧
          (f = .error m ∨ sp = .error m ∨ bg = .error m ∨
           (∃ j, pesv j = .error m) ∨ sc = .error m))) :=
  ⟨lessonTaskTrace_terminal, lessonRegenTaskTrace_terminal, bookTaskTrace_terminal,
   bookRegenTaskTrace_terminal, chapterTaskTrace_terminal⟩

/-- Witness for C2 (amended): a lesson job whose generation call faults with
"boom" ends in a terminal state. -/
theorem background_jobs_reach_terminal_amended_witness :
    ({ status := Status.failed, result_id := none, error_message := "boom" } : TaskState).status =
        .completed ∨
    ({ status := Status.failed, result_id := none, error_message := "boom" } : TaskState).status =
        .failed := by
  have h := background_jobs_reach_terminal_amended.1 (.ok ()) (.ok ()) (.error "boom")
    (.ok ()) (.ok 1) (.ok ())
    { status := .failed, result_id := none, error_message := "boom" } (by decide)
  exact h.1

/-- C7 (amended): book generation is two-stage, but stage one does not
create outline-only stubs — it generates each chapter's body inline while
creating the chapter rows (row k carries the stub title with its positional
default, the stub summary, and the generated content or an inline error
marker), and the separately dispatchable stage two rewrites the contents of
the already-existing chapter rows in order. -/
theorem two_stage_book_generation_amended
    (od : BookOutline) (bid : Nat) (g : Nat → Except String String)
    (cc : Nat → Except String Unit) (sc hd : Except String Unit)
    (hcc : ∀ j, cc j = .ok ())
    (bid2 : Nat) (chs : List Chapter) (g2 : Nat → Except String String)
    (sv esv : Nat → Except String Unit) (sc2 hd2 : Except String Unit)
    (hesv : ∀ j, esv j = .ok ()) :
    (generate_book_outline_background pendingTask (.ok ()) (.ok ()) (.ok od) (.ok bid)
        g cc sc hd).chapters =
      od.chapters.mapIdx (fun k stub =>
        ⟨stub.title.getD ("Chapter " ++ toString (k + 1)), stub.summary.getD "",
         contentOf (g k), k⟩) ∧
    (generate_book_content_background { pendingTask with result_id := some bid2 } bid2
        (.ok ()) (.ok ()) (.ok ()) chs g2 sv esv sc2 hd2).chapters =
      chs.mapIdx (fun k ch => { ch with content := newContent (g2 k) (sv k) }) := by
  constructor
  · have hloop := outlineChapterLoop_ok g cc hcc od.chapters 0
    unfold generate_book_outline_background
    dsimp only
    rw [hloop]
    dsimp only
    rcases sc with m | ⟨⟩ <;> dsimp only <;>
      exact mapIdx_congr_fn _ _ _ (fun k a => by rw [Nat.zero_add])
  · have hloop := contentChapterLoop_ok g2 sv esv hesv chs 0
    unfold generate_book_content_background
    dsimp only
    rw [hloop]
    dsimp only
    rcases sc2 with m | ⟨⟩ <;> dsimp only <;>
      exact mapIdx_congr_fn _ _ _ (fun k a => by rw [Nat.zero_add])

/-- C7 counterexample: a stage-one (outline) run with a successful
chapter-content call creates its chapter row with non-empty generated body,
refuting "creates ... chapter records ... without body content" and "chapter
body content is generated only by the stage-two job". -/
theorem stage_one_generates_chapter_content_counterexample :
    (generate_book_outline_background pendingTask (.ok ()) (.ok ())
        (.ok ⟨some "B", some "D", [⟨some "C1", some "S1"⟩]⟩) (.ok 3)
        (fun _ => .ok "## Body") (fun _ => .ok ()) (.ok ()) (.ok ())).chapters =
      [⟨"C1", "S1", "## Body", 0⟩] ∧ ("## Body" : String) ≠ "" := by decide

/-- Witness for C7 (amended) at a concrete one-chapter outline. -/
theorem two_stage_book_generation_amended_witness :
    (generate_book_outline_background pendingTask (.ok ()) (.ok ())
        (.ok ⟨some "B", some "D", [⟨some "C1", some "S1"⟩]⟩) (.ok 3)
        (fun _ => .ok "X") (fun _ => .ok ()) (.ok ()) (.ok ())).chapters =
      [⟨"C1", "S1", "X", 0⟩] := by
  have h := (two_stage_book_generation_amended
    ⟨some "B", some "D", [⟨some "C1", some "S1"⟩]⟩ 3 (fun _ => .ok "X")
    (fun _ => .ok ()) (.ok ()) (.ok ()) (fun _ => rfl)
    0 [] (fun _ => .ok "") (fun _ => .ok ()) (fun _ => .ok ()) (.ok ()) (.ok ())
    (fun _ => rfl)).1
  rw [h]
  decide

/-- C8: within one book-content job (bookkeeping writes and fallback saves
succeeding), a chapter whose generation or save faults gets the inline error
marker as its body, every other chapter keeps its generated content, the
loop runs to the end, and the task still reaches `completed`. -/
theorem book_content_chapter_failure_isolated
    (bookId : Nat) (chs : List Chapter) (g : Nat → Except String String)
    (sv esv : Nat → Except String Unit) (hd : Except String Unit)
    (hesv : ∀ j, esv j = .ok ()) :
    (generate_book_content_background { pendingTask with result_id := some bookId } bookId
        (.ok ()) (.ok ()) (.ok ()) chs g sv esv (.ok ()) hd).states.getLast? =
      some { status := .completed, result_id := some bookId, error_message := "" } ∧
    (generate_book_content_background { pendingTask with result_id := some bookId } bookId
        (.ok ()) (.ok ()) (.ok ()) chs g sv esv (.ok ()) hd).chapters =
      chs.mapIdx (fun k ch => { ch with content := newContent (g k) (sv k) }) := by
  have hloop := contentChapterLoop_ok g sv esv hesv chs 0
  unfold generate_book_content_background
  dsimp only
  rw [hloop]
  dsimp only
  constructor
  · rfl
  · exact mapIdx_congr_fn _ _ _ (fun k a => by rw [Nat.zero_add])

/-- Witness for C8: chapter 2 of 3 fails, chapters 1 and 3 keep their new
content, the task completes. -/
theorem book_content_chapter_failure_isolated_witness :
    (generate_book_content_background { pendingTask with result_id := some 9 } 9 (.ok ())
        (.ok ()) (.ok ()) [⟨"A", "", "a0", 0⟩, ⟨"B", "", "b0", 1⟩, ⟨"C", "", "c0", 2⟩]
        (fun i => if i = 1 then .error "boom" else .ok "new")
        (fun _ => .ok ()) (fun _ => .ok ()) (.ok ()) (.ok ())).states.getLast? =
      some { status := .completed, result_id := some 9, error_message := "" } ∧
    (generate_book_content_background { pendingTask with result_id := some 9 } 9 (.ok ())
        (.ok ()) (.ok ()) [⟨"A", "", "a0", 0⟩, ⟨"B", "", "b0", 1⟩, ⟨"C", "", "c0", 2⟩]
        (fun i => if i = 1 then .error "boom" else .ok "new")
        (fun _ => .ok ()) (fun _ => .ok ()) (.ok ()) (.ok ())).chapters =
      [⟨"A", "", "new", 0⟩, ⟨"B", "", "Error generating content: boom", 1⟩,
       ⟨"C", "", "new", 2⟩] := by
  have h := book_content_chapter_failure_isolated 9
    [⟨"A", "", "a0", 0⟩, ⟨"B", "", "b0", 1⟩, ⟨"C", "", "c0", 2⟩]
    (fun i => if i = 1 then .error "boom" else .ok "new")
    (fun _ => .ok ()) (fun _ => .ok ()) (.ok ()) (fun _ => rfl)
  exact ⟨h.1, by rw [h.2]; decide⟩
